import Mathlib

/-!
# wrap/StaticMethod.cpp: emission of the MATLAB proxy and of the C++ wrapper

A shallow embedding of `StaticMethod::addOverload`,
`StaticMethod::proxy_wrapper_fragments` and `StaticMethod::wrapper_fragment`.

* `std::string` is `String`, `std::vector` is `List`, and a `FileWriter` is the text
  accumulated in its `oss` stream, to which `<<` appends.
* `size_t` and `int` counters are unbounded numbers: the overload index and the
  function table length are carried as `Nat`, and the `int` parameters of
  `wrapper_fragment` as `Int`, the conversion at the call being value preserving for
  every table that fits in an `int`.
* `operator[]` on a vector is fallible (`Option`): reading past the end has no defined
  result in the source.
* `Argument`, `ArgumentList`, `ReturnValue` and `generateUsingNamespace` are declared in
  headers outside this file; what they print is taken as a parameter (`Collaborators`).
-/

namespace wrap

/-! ## Data model -/

/-- Modelled from the spec: the enumeration `ReturnValue::return_category`, whose
declaration (ReturnValue.h) is not part of the sources. The code names `CLASS` and `VOID`,
the specification names the categories `BASIC` and `CLASS` and the shape `VOID`. -/
inductive return_category where
  | CLASS
  | BASIC
  | VOID
  deriving DecidableEq

/-- Modelled from the spec: the enumeration `ReturnValue::pairing` (ReturnValue.h is not
part of the sources); the code passes `ReturnValue::pair` to `return_type`. -/
inductive pairing where
  | arg1
  | arg2
  | pair
  deriving DecidableEq

/-- Modelled from the spec: the fields of `ReturnValue` that StaticMethod.cpp reads
(ReturnValue.h is not part of the sources). -/
structure ReturnValue where
  isPair : Bool
  type1 : String
  type2 : String
  category1 : return_category
  category2 : return_category
  deriving DecidableEq

/-- Modelled from the spec: an argument carries a native type and a name (Argument.h is
not part of the sources); its host type tag is what `matlabClass()` returns. -/
structure Argument where
  type : String
  name : String
  deriving DecidableEq

/-- The class `ArgumentList` is a vector of arguments. -/
abbrev ArgumentList := List Argument

/-- The member functions and helpers that StaticMethod.cpp calls and that are defined
elsewhere: each field is the text the call returns or writes to the file. -/
structure Collaborators where
  matlabClass : Argument → String
  names : ArgumentList → String
  matlab_unwrap : ArgumentList → Nat → String
  generateUsingNamespace : List String → String
  qualifiedType1 : ReturnValue → String → String
  qualifiedType2 : ReturnValue → String → String
  return_type : ReturnValue → Bool → pairing → String
  wrap_result : ReturnValue → String

/-- A `FileWriter`, reduced to the contents of its stream `oss`. -/
structure FileWriter where
  oss : String
  deriving DecidableEq

/-- The stream operator `file.oss << s`. -/
def FileWriter.write (file : FileWriter) (s : String) : FileWriter :=
  ⟨file.oss ++ s⟩

/-- What `oss << n` prints for an unsigned count. -/
def decimal (n : Nat) : String := Nat.repr n

/-- What `boost::lexical_cast<string>(id)` and `oss << id` print for an `int`. -/
def lexical_cast : Int → String
  | Int.ofNat n => Nat.repr n
  | Int.negSucc n => "-" ++ Nat.repr (n + 1)

/-- The expression `v[i]` for an `int` index: defined only inside the vector. -/
def vectorAt {α : Type} (v : List α) (i : Int) : Option α :=
  if 0 ≤ i then v[i.toNat]? else none

/-- The class `StaticMethod`: one name and two parallel vectors. -/
structure StaticMethod where
  verbose : Bool
  name : String
  argLists : List ArgumentList
  returnVals : List ReturnValue
  deriving DecidableEq

namespace StaticMethod

/-- Modelled from the spec: a freshly constructed `StaticMethod` (the constructor is in
StaticMethod.h, which is not part of the sources) holds no overload. -/
def empty (verbose : Bool) : StaticMethod :=
  ⟨verbose, "", [], []⟩

/-- The member function `StaticMethod::addOverload` (lines 32-38). -/
def addOverload (self : StaticMethod) (verbose : Bool) (name : String)
    (args : ArgumentList) (retVal : ReturnValue) : StaticMethod :=
  { verbose := verbose
    name := name
    argLists := self.argLists ++ [args]
    returnVals := self.returnVals ++ [retVal] }

/-- Line 47: `upperName = name; upperName[0] = std::toupper(upperName[0], std::locale())`
in the classic locale; on an empty name the terminator is written back unchanged. -/
def upperName (name : String) : String :=
  match name.data with
  | [] => name
  | c :: cs => String.mk (c.toUpper :: cs)

/-- The member function `StaticMethod::wrapper_fragment` (lines 101-156): the file after
the writes, and the returned symbol name. -/
def wrapper_fragment (E : Collaborators) (self : StaticMethod) (file : FileWriter)
    (cppClassName matlabClassName : String) (overload : Int) (id : Int)
    (using_namespaces : List String) : Option (FileWriter × String) := do
  let wrapFunctionName := matlabClassName ++ "_" ++ self.name ++ "_" ++ lexical_cast id
  let args ← vectorAt self.argLists overload
  let returnVal ← vectorAt self.returnVals overload
  let file := ((file.write "void ").write wrapFunctionName).write
    "(int nargout, mxArray *out[], int nargin, const mxArray *in[])\n"
  let file := file.write "\x7b\n"
  let file := file.write (E.generateUsingNamespace using_namespaces)
  let file :=
    if returnVal.isPair then
      let file :=
        if returnVal.category1 = return_category.CLASS then
          ((((file.write "  typedef boost::shared_ptr<").write
            (E.qualifiedType1 returnVal "::")).write "> Shared").write
            returnVal.type1).write ";\n"
        else file
      if returnVal.category2 = return_category.CLASS then
        ((((file.write "  typedef boost::shared_ptr<").write
          (E.qualifiedType2 returnVal "::")).write "> Shared").write
          returnVal.type2).write ";\n"
      else file
    else if returnVal.category1 = return_category.CLASS then
      ((((file.write "  typedef boost::shared_ptr<").write
        (E.qualifiedType1 returnVal "::")).write "> Shared").write
        returnVal.type1).write ";\n"
    else file
  let file := ((file.write "  typedef boost::shared_ptr<").write cppClassName).write
    "> Shared;\n"
  let file := ((((((file.write "  checkArguments(\x22").write matlabClassName).write
    ".").write self.name).write "\x22,nargout,nargin,").write
    (decimal args.length)).write ");\n"
  let file := file.write (E.matlab_unwrap args 0)
  let file := file.write "  "
  let file :=
    if returnVal.type1 ≠ "void" then
      (file.write (E.return_type returnVal true pairing.pair)).write " result = "
    else file
  let file := (((((file.write cppClassName).write "::").write self.name).write
    "(").write (E.names args)).write ");\n"
  let file := file.write (E.wrap_result returnVal)
  let file := file.write "\x7d\n"
  pure (file, wrapFunctionName)

/-- The three sinks that `proxy_wrapper_fragments` writes to. -/
structure Sinks where
  proxyFile : FileWriter
  wrapperFile : FileWriter
  functionNames : List String
  deriving DecidableEq

/-- Lines 64-69: the loop over the arguments, with its `first` flag; `i` is the loop
counter and the list holds the arguments from position `i` on. -/
def typeCheckLoop (E : Collaborators) :
    ArgumentList → Nat → Bool → FileWriter → FileWriter
  | [], _, _, proxyFile => proxyFile
  | arg :: rest, i, first, proxyFile =>
    let proxyFile := if !first then proxyFile.write " && " else proxyFile
    let proxyFile := ((((proxyFile.write "isa(varargin\x7b").write
      (decimal (i + 1))).write "\x7d,'").write (E.matlabClass arg)).write "')"
    typeCheckLoop E rest (i + 1) false proxyFile

/-- Lines 52-88: the body of the loop over the overloads. -/
def overloadBody (E : Collaborators) (self : StaticMethod)
    (cppClassName matlabClassName wrapperName : String)
    (using_namespaces : List String) (overload : Nat) (s : Sinks) : Option Sinks := do
  let args ← self.argLists[overload]?
  let returnVal ← self.returnVals[overload]?
  let nrArgs := args.length
  let id : Int := Int.ofNat s.functionNames.length
  let proxyFile := (((s.proxyFile.write "      ").write
    (if overload = 0 then "" else "else")).write "if length(varargin) == ").write
    (decimal nrArgs)
  let proxyFile := if nrArgs > 0 then proxyFile.write " && " else proxyFile
  let proxyFile := typeCheckLoop E args 0 true proxyFile
  let proxyFile := proxyFile.write "\n"
  let output : String :=
    if returnVal.isPair then "[ varargout\x7b1\x7d varargout\x7b2\x7d ] = "
    else if returnVal.category1 = return_category.VOID then ""
    else "varargout\x7b1\x7d = "
  let proxyFile := (((((proxyFile.write "        ").write output).write
    wrapperName).write "(").write (lexical_cast id)).write ", varargin\x7b:\x7d);\n"
  let (wrapperFile, wrapFunctionName) ←
    wrapper_fragment E self s.wrapperFile cppClassName matlabClassName
      (Int.ofNat overload) id using_namespaces
  pure ⟨proxyFile, wrapperFile, s.functionNames ++ [wrapFunctionName]⟩

/-- Line 51: `for (overload = 0; overload < argLists.size(); ++overload)`, with `fuel`
the number of iterations still to run. -/
def overloadLoop (E : Collaborators) (self : StaticMethod)
    (cppClassName matlabClassName wrapperName : String)
    (using_namespaces : List String) : Nat → Nat → Sinks → Option Sinks
  | 0, _, s => some s
  | fuel + 1, overload, s =>
    match overloadBody E self cppClassName matlabClassName wrapperName using_namespaces
        overload s with
    | none => none
    | some s => overloadLoop E self cppClassName matlabClassName wrapperName
        using_namespaces fuel (overload + 1) s

/-- The member function `StaticMethod::proxy_wrapper_fragments` (lines 40-98). -/
def proxy_wrapper_fragments (E : Collaborators) (self : StaticMethod)
    (proxyFile wrapperFile : FileWriter)
    (cppClassName matlabClassName wrapperName : String)
    (using_namespaces : List String) (functionNames : List String) : Option Sinks := do
  let upperName := upperName self.name
  let proxyFile := ((proxyFile.write "    function varargout = ").write upperName).write
    "(varargin)\n"
  let s ← overloadLoop E self cppClassName matlabClassName wrapperName using_namespaces
    self.argLists.length 0 ⟨proxyFile, wrapperFile, functionNames⟩
  let proxyFile := s.proxyFile.write "      else\n"
  let proxyFile := ((((proxyFile.write
    "        error('Arguments do not match any overload of function ").write
    matlabClassName).write ".").write upperName).write "');\n"
  let proxyFile := proxyFile.write "      end\n"
  let proxyFile := proxyFile.write "    end\n"
  pure ⟨proxyFile, s.wrapperFile, s.functionNames⟩

end StaticMethod

/-! ## The emitted text, piece by piece -/

/-- One type check of a predicate: `isa(varargin{j},'tag')`. -/
def isaCheck (j : Nat) (tag : String) : String :=
  "isa(varargin\x7b" ++ decimal j ++ "\x7d,'" ++ tag ++ "')"

/-- The type checks of an argument list whose first argument has position `j`. -/
def isaChecks (E : Collaborators) : ArgumentList → Nat → List String
  | [], _ => []
  | arg :: rest, j => isaCheck j (E.matlabClass arg) :: isaChecks E rest (j + 1)

/-- The predicate of an overload as the specification words it: the arity test and, for
a positive arity, the conjunction of the type checks of positions 1, 2, ... -/
def predicateText (E : Collaborators) (args : ArgumentList) : String :=
  "length(varargin) == " ++ decimal args.length ++
    (if 0 < args.length then " && " ++ " && ".intercalate (isaChecks E args 1) else "")

/-- The line that opens the branch of an overload. -/
def guardLine (E : Collaborators) (overload : Nat) (args : ArgumentList) : String :=
  "      " ++ (if overload = 0 then "if " else "elseif ") ++ predicateText E args ++ "\n"

/-- The output binding of a return value as the specification words it. -/
def outputBinding (returnVal : ReturnValue) : String :=
  if returnVal.isPair then "[ varargout\x7b1\x7d varargout\x7b2\x7d ] = "
  else if returnVal.category1 = return_category.VOID then ""
  else "varargout\x7b1\x7d = "

/-- The line of a branch that calls the wrapper with a function id. -/
def callLine (wrapperName : String) (returnVal : ReturnValue) (id : Nat) : String :=
  "        " ++ outputBinding returnVal ++ wrapperName ++ "(" ++ decimal id ++
    ", varargin\x7b:\x7d);\n"

/-- The branch of one overload: its guard and its call. -/
def branchText (E : Collaborators) (wrapperName : String) (overload : Nat)
    (args : ArgumentList) (returnVal : ReturnValue) (id : Nat) : String :=
  guardLine E overload args ++ callLine wrapperName returnVal id

/-- The first line of the proxy function. -/
def proxyHeader (name : String) : String :=
  "    function varargout = " ++ StaticMethod.upperName name ++ "(varargin)\n"

/-- The trailing branch of the proxy function. -/
def errorBranch (matlabClassName name : String) : String :=
  "      else\n" ++ "        error('Arguments do not match any overload of function " ++
    matlabClassName ++ "." ++ StaticMethod.upperName name ++ "');\n"

/-- The two lines that close the branch chain and the proxy function. -/
def proxyFooter : String := "      end\n" ++ "    end\n"

/-- The symbol name of the wrapper function with a given id. -/
def symbolName (matlabClassName name : String) (id : Int) : String :=
  matlabClassName ++ "_" ++ name ++ "_" ++ lexical_cast id

/-- The alias emitted for a result slot of category `CLASS`. -/
def sharedAlias (qualifiedType type : String) : String :=
  "  typedef boost::shared_ptr<" ++ qualifiedType ++ "> Shared" ++ type ++ ";\n"

/-- The aliases of the class-typed results of a return value. -/
def resultAliases (E : Collaborators) (returnVal : ReturnValue) : String :=
  (if returnVal.category1 = return_category.CLASS
    then sharedAlias (E.qualifiedType1 returnVal "::") returnVal.type1 else "") ++
  (if returnVal.isPair = true ∧ returnVal.category2 = return_category.CLASS
    then sharedAlias (E.qualifiedType2 returnVal "::") returnVal.type2 else "")

/-- The text of the native entry of one overload. -/
def nativeEntry (E : Collaborators) (cppClassName matlabClassName name : String)
    (using_namespaces : List String) (args : ArgumentList) (returnVal : ReturnValue)
    (id : Int) : String :=
  "void " ++ symbolName matlabClassName name id ++
    "(int nargout, mxArray *out[], int nargin, const mxArray *in[])\n" ++ "\x7b\n" ++
    E.generateUsingNamespace using_namespaces ++ resultAliases E returnVal ++
    "  typedef boost::shared_ptr<" ++ cppClassName ++ "> Shared;\n" ++
    "  checkArguments(\x22" ++ matlabClassName ++ "." ++ name ++ "\x22,nargout,nargin," ++
    decimal args.length ++ ");\n" ++ E.matlab_unwrap args 0 ++ "  " ++
    (if returnVal.type1 ≠ "void"
      then E.return_type returnVal true pairing.pair ++ " result = " else "") ++
    cppClassName ++ "::" ++ name ++ "(" ++ E.names args ++ ");\n" ++
    E.wrap_result returnVal ++ "\x7d\n"

/-- The branches of the overloads `(args, returnVal)` of a list, the first of which has
index `overload` and function id `id`. -/
def branchTexts (E : Collaborators) (wrapperName : String) :
    List (ArgumentList × ReturnValue) → Nat → Nat → List String
  | [], _, _ => []
  | (args, returnVal) :: rest, overload, id =>
    branchText E wrapperName overload args returnVal id ::
      branchTexts E wrapperName rest (overload + 1) (id + 1)

/-- The native entries of the overloads of a list, the first of which has id `id`. -/
def nativeEntries (E : Collaborators) (cppClassName matlabClassName name : String)
    (using_namespaces : List String) :
    List (ArgumentList × ReturnValue) → Nat → List String
  | [], _ => []
  | (args, returnVal) :: rest, id =>
    nativeEntry E cppClassName matlabClassName name using_namespaces args returnVal
        (Int.ofNat id) ::
      nativeEntries E cppClassName matlabClassName name using_namespaces rest (id + 1)

/-- The symbol names with ids `id`, `id + 1`, ..., `id + count - 1`. -/
def symbolNames (matlabClassName name : String) : Nat → Nat → List String
  | 0, _ => []
  | count + 1, id =>
    symbolName matlabClassName name (Int.ofNat id) ::
      symbolNames matlabClassName name count (id + 1)

/-- The overloads of a method: argument lists paired with return values. -/
def StaticMethod.overloads (self : StaticMethod) : List (ArgumentList × ReturnValue) :=
  self.argLists.zip self.returnVals

/-! ## A worked example -/

/-- Collaborators for the examples: plain renderings of arguments and results. -/
def exampleCollaborators : Collaborators where
  matlabClass := fun arg => if arg.type = "string" then "char" else arg.type
  names := fun args => ",".intercalate (args.map Argument.name)
  matlab_unwrap := fun args start =>
    "  // unwrap " ++ decimal args.length ++ " from in[" ++ decimal start ++ "]\n"
  generateUsingNamespace := fun spaces =>
    String.join (spaces.map (fun n => "  using namespace " ++ n ++ ";\n"))
  qualifiedType1 := fun returnVal delim => "geometry" ++ delim ++ returnVal.type1
  qualifiedType2 := fun returnVal delim => "geometry" ++ delim ++ returnVal.type2
  return_type := fun returnVal _ _ => returnVal.type1
  wrap_result := fun returnVal =>
    if returnVal.type1 = "void" then "" else "  out[0] = wrap(result);\n"

/-- The return value of a `void` method. -/
def voidReturn : ReturnValue := ⟨false, "void", "", return_category.VOID, return_category.CLASS⟩

/-- The return value of a method that returns one object of class `Point`. -/
def pointReturn : ReturnValue :=
  ⟨false, "Point", "", return_category.CLASS, return_category.CLASS⟩

/-- The return value of a method that returns a pair of a number and a `Point`. -/
def pairReturn : ReturnValue :=
  ⟨true, "double", "Point", return_category.BASIC, return_category.CLASS⟩

/-- The method `foo` with the overloads `()`, `(double x)` and `(string s, double y)`. -/
def exampleMethod : StaticMethod :=
  (((StaticMethod.empty true).addOverload true "foo" [] voidReturn).addOverload true "foo"
    [⟨"double", "x"⟩] pointReturn).addOverload true "foo"
    [⟨"string", "s"⟩, ⟨"double", "y"⟩] pairReturn

/-! ## The branch chain as a program of the host language -/

/-- A condition of a guard of the proxy: an arity test or a type check of the argument
at a 1-based position. -/
inductive Condition where
  | lengthIs (n : Nat)
  | isa (position : Nat) (tag : String)
  deriving DecidableEq

/-- The text of a condition. -/
def Condition.render : Condition → String
  | Condition.lengthIs n => "length(varargin) == " ++ decimal n
  | Condition.isa position tag => isaCheck position tag

/-- A branch of the chain: its conditions, joined by `&&`, and the call it guards. -/
structure Branch where
  conditions : List Condition
  output : String
  id : Nat
  deriving DecidableEq

/-- The text of a branch that stands at a position of the chain. -/
def Branch.render (wrapperName : String) (overload : Nat) (b : Branch) : String :=
  "      " ++ (if overload = 0 then "if " else "elseif ") ++
    " && ".intercalate (b.conditions.map Condition.render) ++ "\n" ++
    ("        " ++ b.output ++ wrapperName ++ "(" ++ decimal b.id ++
      ", varargin\x7b:\x7d);\n")

/-- The texts of the branches of a chain whose first branch stands at `overload`. -/
def renderChain (wrapperName : String) : List Branch → Nat → List String
  | [], _ => []
  | b :: rest, overload =>
    b.render wrapperName overload :: renderChain wrapperName rest (overload + 1)

/-- What a run of the proxy function does: it calls the wrapper with an id, it reaches the
`else` branch and raises the error, or it fails while evaluating a guard. -/
inductive Outcome where
  | call (id : Nat)
  | noMatch
  | fault
  deriving DecidableEq

/-- The value of a condition on the arguments `varargin`, given the host's `isa`;
indexing `varargin{position}` outside the arguments is an error (`none`). -/
def Condition.eval {Value : Type} (isa : Value → String → Bool) (varargin : List Value) :
    Condition → Option Bool
  | Condition.lengthIs n => some (decide (varargin.length = n))
  | Condition.isa position tag =>
    if position = 0 then none else (varargin[position - 1]?).map (fun v => isa v tag)

/-- The value of a guard: `&&` evaluates from the left and stops at the first false. -/
def evalGuard {Value : Type} (isa : Value → String → Bool) (varargin : List Value) :
    List Condition → Option Bool
  | [] => some true
  | c :: rest =>
    match c.eval isa varargin with
    | none => none
    | some false => some false
    | some true => evalGuard isa varargin rest

/-- The if/elseif/else semantics: the first branch whose guard holds is taken. -/
def runChain {Value : Type} (isa : Value → String → Bool) (varargin : List Value) :
    List Branch → Outcome
  | [] => Outcome.noMatch
  | b :: rest =>
    match evalGuard isa varargin b.conditions with
    | none => Outcome.fault
    | some true => Outcome.call b.id
    | some false => runChain isa varargin rest

/-- The type conditions of an argument list whose first argument has position `j`. -/
def isaConditions (E : Collaborators) : ArgumentList → Nat → List Condition
  | [], _ => []
  | arg :: rest, j => Condition.isa j (E.matlabClass arg) :: isaConditions E rest (j + 1)

/-- The branch that the proxy holds for an overload with a given id. -/
def overloadBranch (E : Collaborators) (args : ArgumentList) (returnVal : ReturnValue)
    (id : Nat) : Branch :=
  ⟨Condition.lengthIs args.length :: isaConditions E args 1, outputBinding returnVal, id⟩

/-- The chain that the proxy holds for a list of overloads, the first with id `id`. -/
def overloadChain (E : Collaborators) : List (ArgumentList × ReturnValue) → Nat → List Branch
  | [], _ => []
  | (args, returnVal) :: rest, id =>
    overloadBranch E args returnVal id :: overloadChain E rest (id + 1)

/-- Every argument of a list satisfies the type tag declared at its position. -/
def tagsHold {Value : Type} (isa : Value → String → Bool) (E : Collaborators) :
    ArgumentList → List Value → Bool
  | [], _ => true
  | _ :: _, [] => false
  | arg :: args, v :: vs => isa v (E.matlabClass arg) && tagsHold isa E args vs

/-- The predicate of an overload on runtime arguments: exact arity and every positional
type tag. -/
def predicateHolds {Value : Type} (isa : Value → String → Bool) (E : Collaborators)
    (args : ArgumentList) (varargin : List Value) : Bool :=
  decide (varargin.length = args.length) && tagsHold isa E args varargin

/-- A host in which a value is the name of its class and `isa` compares names. -/
def exampleIsa (v : String) (tag : String) : Bool := decide (v = tag)

/-- The method `foo` with the single overload `()` that returns nothing. -/
def plainMethod : StaticMethod :=
  (StaticMethod.empty true).addOverload true "foo" [] voidReturn

/-- A method with three overloads of the same signature `(double x)`. -/
def tripleMethod : StaticMethod :=
  (((StaticMethod.empty true).addOverload true "foo" [⟨"double", "x"⟩]
    voidReturn).addOverload true "foo" [⟨"double", "x"⟩] voidReturn).addOverload true "foo"
    [⟨"double", "x"⟩] voidReturn

/-! ## A generation session -/

/-- One method to emit, with the names of the class that owns it. -/
structure Emission where
  method : StaticMethod
  cppClassName : String
  matlabClassName : String

/-- Consecutive calls of `proxy_wrapper_fragments`, one per method, each on the two files
and the function table that the call before left; a call that fails ends the sequence. -/
def emitAll (E : Collaborators) (wrapperName : String) (using_namespaces : List String) :
    List Emission → StaticMethod.Sinks → Option StaticMethod.Sinks
  | [], s => some s
  | e :: rest, s =>
    match StaticMethod.proxy_wrapper_fragments E e.method s.proxyFile s.wrapperFile
        e.cppClassName e.matlabClassName wrapperName using_namespaces s.functionNames with
    | none => none
    | some s => emitAll E wrapperName using_namespaces rest s

/-- One call of `addOverload`: its arguments. -/
structure Registration where
  verbose : Bool
  name : String
  args : ArgumentList
  retVal : ReturnValue

/-- A sequence of `addOverload` calls on a method, in call order. -/
def registerAll (self : StaticMethod) : List Registration → StaticMethod
  | [] => self
  | c :: rest => registerAll (self.addOverload c.verbose c.name c.args c.retVal) rest

/-- The number a decimal rendering stands for. -/
def decimalValue (digits : List Char) : Nat :=
  digits.foldl (fun acc c => acc * 10 + (c.toNat - 48)) 0

/-- A session of two methods on two classes. -/
def exampleSession : List Emission :=
  [⟨exampleMethod, "Bar", "Bar"⟩, ⟨tripleMethod, "geometry::Baz", "geometryBaz"⟩]

/-- The scenario of the specification: method `Foo` with the overload `()` that returns
nothing and the overload `(double x)` that returns an object of class `Point`. -/
def scenarioMethod : StaticMethod :=
  ((StaticMethod.empty true).addOverload true "Foo" [] voidReturn).addOverload true "Foo"
    [⟨"double", "x"⟩] pointReturn

/-- The opening of a native entry: its signature, the brace and the namespaces. -/
def entryOpening (E : Collaborators) (matlabClassName name : String)
    (using_namespaces : List String) (id : Int) : String :=
  "void " ++ symbolName matlabClassName name id ++
    "(int nargout, mxArray *out[], int nargin, const mxArray *in[])\n" ++ "\x7b\n" ++
    E.generateUsingNamespace using_namespaces

/-- The part of a native entry between the result aliases and the call: the alias of the
class, the arity assertion and the unwrapping of the arguments. -/
def entryChecks (E : Collaborators) (cppClassName matlabClassName name : String)
    (args : ArgumentList) : String :=
  "  typedef boost::shared_ptr<" ++ cppClassName ++ "> Shared;\n" ++
    "  checkArguments(\x22" ++ matlabClassName ++ "." ++ name ++ "\x22,nargout,nargin," ++
    decimal args.length ++ ");\n" ++ E.matlab_unwrap args 0

open StaticMethod

theorem write_oss (file : FileWriter) (s : String) : (file.write s).oss = file.oss ++ s :=
  rfl

theorem join_nil : String.join [] = "" := rfl

theorem join_cons (a : String) (l : List String) :
    String.join (a :: l) = a ++ String.join l := by
  apply String.ext
  simp [String.data_join, String.data_append]

theorem join_append (l₁ l₂ : List String) :
    String.join (l₁ ++ l₂) = String.join l₁ ++ String.join l₂ := by
  apply String.ext
  simp [String.data_join, String.data_append]

theorem intercalate_go (sep : String) (l : List String) (acc : String) :
    String.intercalate.go acc sep l = acc ++ String.join (l.map (fun c => sep ++ c)) := by
  induction l generalizing acc with
  | nil => simp [String.intercalate.go, join_nil]
  | cons a l ih =>
    simp only [String.intercalate.go, List.map_cons, join_cons, ih, String.append_assoc]

theorem intercalate_cons (sep a : String) (l : List String) :
    sep.intercalate (a :: l) = a ++ String.join (l.map (fun c => sep ++ c)) := by
  simp only [String.intercalate, intercalate_go]

theorem typeCheckLoop_rest (E : Collaborators) (args : ArgumentList) (i : Nat)
    (file : FileWriter) :
    typeCheckLoop E args i false file =
      ⟨file.oss ++ String.join ((isaChecks E args (i + 1)).map (fun c => " && " ++ c))⟩ := by
  induction args generalizing i file with
  | nil => simp [typeCheckLoop, isaChecks, join_nil]
  | cons arg rest ih =>
    simp only [typeCheckLoop, isaChecks, List.map_cons, join_cons, ih, write_oss, isaCheck,
      Bool.not_false, if_true, String.append_assoc]

theorem typeCheckLoop_first (E : Collaborators) (args : ArgumentList) (file : FileWriter) :
    typeCheckLoop E args 0 true file =
      ⟨file.oss ++ " && ".intercalate (isaChecks E args 1)⟩ := by
  cases args with
  | nil => simp [typeCheckLoop, isaChecks, String.intercalate]
  | cons arg rest =>
    simp only [typeCheckLoop, isaChecks, intercalate_cons, typeCheckLoop_rest, write_oss,
      isaCheck, Bool.not_true, String.append_assoc]
    simp

theorem vectorAt_ofNat {α : Type} (v : List α) (i : Nat) :
    vectorAt v (Int.ofNat i) = v[i]? := by
  simp [vectorAt]

theorem wrapper_fragment_eq (E : Collaborators) (self : StaticMethod) (file : FileWriter)
    (cppClassName matlabClassName : String) (overload : Nat) (id : Int)
    (using_namespaces : List String) (args : ArgumentList) (returnVal : ReturnValue)
    (ha : self.argLists[overload]? = some args)
    (hr : self.returnVals[overload]? = some returnVal) :
    wrapper_fragment E self file cppClassName matlabClassName (Int.ofNat overload) id
        using_namespaces =
      some (⟨file.oss ++ nativeEntry E cppClassName matlabClassName self.name
        using_namespaces args returnVal id⟩, symbolName matlabClassName self.name id) := by
  unfold wrapper_fragment
  rw [vectorAt_ofNat, vectorAt_ofNat, ha, hr]
  simp only [Option.bind_eq_bind, Option.some_bind, Option.pure_def, Option.some.injEq,
    Prod.mk.injEq, symbolName, and_true]
  unfold nativeEntry resultAliases sharedAlias symbolName
  simp only [FileWriter.write, ne_eq, ite_not]
  split_ifs <;>
    first
    | (simp only [String.append_assoc, String.append_empty, String.empty_append]; done)
    | (exfalso; tauto)

theorem guard_if : "if length(varargin) == " = "if " ++ "length(varargin) == " := by
  decide

theorem guard_elseif : "elseif " = "else" ++ "if " := by
  decide

theorem overloadBody_eq (E : Collaborators) (self : StaticMethod)
    (cppClassName matlabClassName wrapperName : String) (using_namespaces : List String)
    (overload : Nat) (s : Sinks) (args : ArgumentList) (returnVal : ReturnValue)
    (ha : self.argLists[overload]? = some args)
    (hr : self.returnVals[overload]? = some returnVal) :
    overloadBody E self cppClassName matlabClassName wrapperName using_namespaces
        overload s =
      some ⟨⟨s.proxyFile.oss ++
          branchText E wrapperName overload args returnVal s.functionNames.length⟩,
        ⟨s.wrapperFile.oss ++ nativeEntry E cppClassName matlabClassName self.name
          using_namespaces args returnVal (Int.ofNat s.functionNames.length)⟩,
        s.functionNames ++
          [symbolName matlabClassName self.name (Int.ofNat s.functionNames.length)]⟩ := by
  unfold overloadBody
  rw [ha, hr]
  simp only [Option.bind_eq_bind, Option.some_bind, Option.pure_def,
    wrapper_fragment_eq E self s.wrapperFile cppClassName matlabClassName overload
      (Int.ofNat s.functionNames.length) using_namespaces args returnVal ha hr,
    typeCheckLoop_first]
  unfold branchText guardLine callLine predicateText outputBinding
  simp only [FileWriter.write, lexical_cast, decimal, gt_iff_lt]
  rcases args with _ | ⟨arg, rest⟩ <;>
  simp only [List.length_nil, List.length_cons, Nat.lt_irrefl, Nat.zero_lt_succ, if_true,
    if_false, isaChecks, String.intercalate] <;>
  split_ifs <;>
    simp only [guard_if, guard_elseif, String.append_assoc, String.append_empty,
      String.empty_append]

theorem overloadLoop_eq (E : Collaborators) (self : StaticMethod)
    (cppClassName matlabClassName wrapperName : String) (using_namespaces : List String)
    (os : List (ArgumentList × ReturnValue)) :
    ∀ (overload : Nat) (s : Sinks),
      (∀ i a r, os[i]? = some (a, r) →
        self.argLists[overload + i]? = some a ∧ self.returnVals[overload + i]? = some r) →
      overloadLoop E self cppClassName matlabClassName wrapperName using_namespaces
          os.length overload s =
        some ⟨⟨s.proxyFile.oss ++
            String.join (branchTexts E wrapperName os overload s.functionNames.length)⟩,
          ⟨s.wrapperFile.oss ++ String.join (nativeEntries E cppClassName matlabClassName
            self.name using_namespaces os s.functionNames.length)⟩,
          s.functionNames ++
            symbolNames matlabClassName self.name os.length s.functionNames.length⟩ := by
  induction os with
  | nil =>
    intro overload s _
    simp [overloadLoop, branchTexts, nativeEntries, symbolNames, join_nil]
  | cons o rest ih =>
    intro overload s h
    obtain ⟨a, r⟩ := o
    have h0 := h 0 a r (by simp)
    simp only [Nat.add_zero] at h0
    have hrest : ∀ i a' r', rest[i]? = some (a', r') →
        self.argLists[overload + 1 + i]? = some a' ∧
          self.returnVals[overload + 1 + i]? = some r' := by
      intro i a' r' hi
      have := h (i + 1) a' r' (by simpa using hi)
      rwa [show overload + 1 + i = overload + (i + 1) by omega]
    simp only [List.length_cons, overloadLoop,
      overloadBody_eq E self cppClassName matlabClassName wrapperName using_namespaces
        overload s a r h0.1 h0.2]
    rw [ih (overload + 1) _ hrest]
    simp only [branchTexts, nativeEntries, symbolNames, join_cons, List.length_append,
      List.length_singleton, String.append_assoc, List.append_assoc, List.singleton_append]

theorem overloads_lookup (self : StaticMethod) (i : Nat) (a : ArgumentList)
    (r : ReturnValue) (h : self.overloads[i]? = some (a, r)) :
    self.argLists[i]? = some a ∧ self.returnVals[i]? = some r := by
  unfold StaticMethod.overloads at h
  exact List.getElem?_zip_eq_some.mp h

theorem overloads_length (self : StaticMethod)
    (hwf : self.returnVals.length = self.argLists.length) :
    self.overloads.length = self.argLists.length := by
  simp [StaticMethod.overloads, hwf]

/-- The closed form of `proxy_wrapper_fragments` on a method whose two vectors have the
same length: the three sinks after the call. -/
theorem proxy_wrapper_fragments_eq (E : Collaborators) (self : StaticMethod)
    (proxyFile wrapperFile : FileWriter)
    (cppClassName matlabClassName wrapperName : String) (using_namespaces : List String)
    (functionNames : List String)
    (hwf : self.returnVals.length = self.argLists.length) :
    proxy_wrapper_fragments E self proxyFile wrapperFile cppClassName matlabClassName
        wrapperName using_namespaces functionNames =
      some ⟨⟨proxyFile.oss ++ proxyHeader self.name ++
          String.join (branchTexts E wrapperName self.overloads 0 functionNames.length) ++
          errorBranch matlabClassName self.name ++ proxyFooter⟩,
        ⟨wrapperFile.oss ++ String.join (nativeEntries E cppClassName matlabClassName
          self.name using_namespaces self.overloads functionNames.length)⟩,
        functionNames ++
          symbolNames matlabClassName self.name self.argLists.length
            functionNames.length⟩ := by
  unfold proxy_wrapper_fragments
  have hloop := overloadLoop_eq E self cppClassName matlabClassName wrapperName
    using_namespaces self.overloads 0
    ⟨((proxyFile.write "    function varargout = ").write (upperName self.name)).write
      "(varargin)\n", wrapperFile, functionNames⟩
    (by
      intro i a r hi
      simpa using overloads_lookup self i a r hi)
  rw [overloads_length self hwf] at hloop
  simp only [Option.bind_eq_bind, hloop, Option.some_bind, Option.pure_def]
  simp only [proxyHeader, errorBranch, proxyFooter, FileWriter.write, String.append_assoc]

/-! ## Reading the closed form by position -/

theorem branchTexts_length (E : Collaborators) (wrapperName : String)
    (os : List (ArgumentList × ReturnValue)) (overload id : Nat) :
    (branchTexts E wrapperName os overload id).length = os.length := by
  induction os generalizing overload id with
  | nil => rfl
  | cons o rest ih => simp [branchTexts, ih]

theorem branchTexts_lookup (E : Collaborators) (wrapperName : String)
    (os : List (ArgumentList × ReturnValue)) (overload id i : Nat) (a : ArgumentList)
    (r : ReturnValue) (h : os[i]? = some (a, r)) :
    (branchTexts E wrapperName os overload id)[i]? =
      some (branchText E wrapperName (overload + i) a r (id + i)) := by
  induction os generalizing overload id i with
  | nil => simp at h
  | cons o rest ih =>
    cases i with
    | zero =>
      simp only [List.getElem?_cons_zero, Option.some.injEq] at h
      subst h
      simp [branchTexts]
    | succ j =>
      simp only [List.getElem?_cons_succ] at h
      obtain ⟨a', r'⟩ := o
      simp only [branchTexts, List.getElem?_cons_succ, ih (overload + 1) (id + 1) j h]
      rw [show overload + 1 + j = overload + (j + 1) by omega,
        show id + 1 + j = id + (j + 1) by omega]

theorem nativeEntries_length (E : Collaborators) (cppClassName matlabClassName name : String)
    (using_namespaces : List String) (os : List (ArgumentList × ReturnValue)) (id : Nat) :
    (nativeEntries E cppClassName matlabClassName name using_namespaces os id).length =
      os.length := by
  induction os generalizing id with
  | nil => rfl
  | cons o rest ih => simp [nativeEntries, ih]

theorem nativeEntries_lookup (E : Collaborators) (cppClassName matlabClassName name : String)
    (using_namespaces : List String) (os : List (ArgumentList × ReturnValue)) (id i : Nat)
    (a : ArgumentList) (r : ReturnValue) (h : os[i]? = some (a, r)) :
    (nativeEntries E cppClassName matlabClassName name using_namespaces os id)[i]? =
      some (nativeEntry E cppClassName matlabClassName name using_namespaces a r
        (Int.ofNat (id + i))) := by
  induction os generalizing id i with
  | nil => simp at h
  | cons o rest ih =>
    cases i with
    | zero =>
      simp only [List.getElem?_cons_zero, Option.some.injEq] at h
      subst h
      simp [nativeEntries]
    | succ j =>
      simp only [List.getElem?_cons_succ] at h
      obtain ⟨a', r'⟩ := o
      simp only [nativeEntries, List.getElem?_cons_succ, ih (id + 1) j h]
      rw [show id + 1 + j = id + (j + 1) by omega]

theorem symbolNames_length (matlabClassName name : String) (count id : Nat) :
    (symbolNames matlabClassName name count id).length = count := by
  induction count generalizing id with
  | zero => rfl
  | succ k ih => simp [symbolNames, ih]

theorem symbolNames_lookup (matlabClassName name : String) (count id i : Nat)
    (h : i < count) :
    (symbolNames matlabClassName name count id)[i]? =
      some (symbolName matlabClassName name (Int.ofNat (id + i))) := by
  induction count generalizing id i with
  | zero => omega
  | succ k ih =>
    cases i with
    | zero => simp [symbolNames]
    | succ j =>
      simp only [symbolNames, List.getElem?_cons_succ, ih (id + 1) j (by omega)]
      rw [show id + 1 + j = id + (j + 1) by omega]

theorem overloads_of_lookup (self : StaticMethod) (i : Nat) (a : ArgumentList)
    (r : ReturnValue) (ha : self.argLists[i]? = some a)
    (hr : self.returnVals[i]? = some r) : self.overloads[i]? = some (a, r) := by
  unfold StaticMethod.overloads
  exact List.getElem?_zip_eq_some.mpr ⟨ha, hr⟩

theorem table_lookup (functionNames : List String) (matlabClassName name : String)
    (count i : Nat) (h : i < count) :
    (functionNames ++ symbolNames matlabClassName name count functionNames.length)[
        functionNames.length + i]? =
      some (symbolName matlabClassName name (Int.ofNat (functionNames.length + i))) := by
  rw [List.getElem?_append_right (by omega)]
  simp only [Nat.add_sub_cancel_left]
  exact symbolNames_lookup matlabClassName name count functionNames.length i h

theorem isaChecks_length (E : Collaborators) (args : ArgumentList) (j : Nat) :
    (isaChecks E args j).length = args.length := by
  induction args generalizing j with
  | nil => rfl
  | cons arg rest ih => simp [isaChecks, ih]

theorem isaChecks_lookup (E : Collaborators) (args : ArgumentList) (j i : Nat)
    (arg : Argument) (h : args[i]? = some arg) :
    (isaChecks E args j)[i]? = some (isaCheck (j + i) (E.matlabClass arg)) := by
  induction args generalizing j i with
  | nil => simp at h
  | cons first rest ih =>
    cases i with
    | zero =>
      simp only [List.getElem?_cons_zero, Option.some.injEq] at h
      subst h
      simp [isaChecks]
    | succ k =>
      simp only [List.getElem?_cons_succ] at h
      simp only [isaChecks, List.getElem?_cons_succ, ih (j + 1) k h]
      rw [show j + 1 + k = j + (k + 1) by omega]

theorem lookup_lt {α : Type} (l : List α) (i : Nat) (a : α) (h : l[i]? = some a) :
    i < l.length := by
  rcases Nat.lt_or_ge i l.length with hlt | hge
  · exact hlt
  · rw [List.getElem?_eq_none hge] at h
    cases h

/-- The branch of overload `i` in the closed form of the proxy text. -/
theorem branch_lookup (E : Collaborators) (self : StaticMethod) (wrapperName : String)
    (n i : Nat) (args : ArgumentList) (returnVal : ReturnValue)
    (ha : self.argLists[i]? = some args) (hr : self.returnVals[i]? = some returnVal) :
    (branchTexts E wrapperName self.overloads 0 n)[i]? =
      some (branchText E wrapperName i args returnVal (n + i)) := by
  rw [branchTexts_lookup E wrapperName self.overloads 0 n i args returnVal
    (overloads_of_lookup self i args returnVal ha hr), Nat.zero_add]

/-! ## The branch chain: its text and its runs -/

theorem isaConditions_render (E : Collaborators) (args : ArgumentList) (j : Nat) :
    (isaConditions E args j).map Condition.render = isaChecks E args j := by
  induction args generalizing j with
  | nil => rfl
  | cons arg rest ih => simp [isaConditions, isaChecks, Condition.render, ih]

theorem join_separated (sep : String) (cs : List String) :
    String.join (cs.map (fun c => sep ++ c)) =
      if 0 < cs.length then sep ++ sep.intercalate cs else "" := by
  cases cs with
  | nil => simp [join_nil]
  | cons c rest =>
    simp only [List.map_cons, join_cons, intercalate_cons, List.length_cons,
      Nat.zero_lt_succ, if_true, String.append_assoc]

theorem overloadBranch_render (E : Collaborators) (wrapperName : String) (overload : Nat)
    (args : ArgumentList) (returnVal : ReturnValue) (id : Nat) :
    (overloadBranch E args returnVal id).render wrapperName overload =
      branchText E wrapperName overload args returnVal id := by
  simp only [Branch.render, overloadBranch, List.map_cons, isaConditions_render,
    intercalate_cons, join_separated, isaChecks_length, Condition.render, branchText,
    guardLine, predicateText, callLine, String.append_assoc]

theorem renderChain_overloadChain (E : Collaborators) (wrapperName : String)
    (os : List (ArgumentList × ReturnValue)) (overload id : Nat) :
    renderChain wrapperName (overloadChain E os id) overload =
      branchTexts E wrapperName os overload id := by
  induction os generalizing overload id with
  | nil => rfl
  | cons o rest ih =>
    obtain ⟨a, r⟩ := o
    simp only [overloadChain, renderChain, branchTexts, overloadBranch_render, ih]

theorem evalGuard_isaConditions {Value : Type} (isa : Value → String → Bool)
    (E : Collaborators) (args : ArgumentList) :
    ∀ (front rest : List Value), rest.length = args.length →
      evalGuard isa (front ++ rest) (isaConditions E args (front.length + 1)) =
        some (tagsHold isa E args rest) := by
  induction args with
  | nil =>
    intro front rest _
    simp [isaConditions, evalGuard, tagsHold]
  | cons arg args ih =>
    intro front rest hlen
    cases rest with
    | nil => simp at hlen
    | cons v vs =>
      have hvs : vs.length = args.length := by simpa using hlen
      have hnext := ih (front ++ [v]) vs hvs
      simp only [List.length_append, List.length_singleton, List.append_assoc,
        List.singleton_append] at hnext
      have hget : (front ++ v :: vs)[front.length]? = some v := by
        rw [List.getElem?_append_right (Nat.le_refl _)]
        simp
      simp only [isaConditions, evalGuard, Condition.eval, Nat.add_one_ne_zero, if_false,
        Nat.add_sub_cancel, hget, Option.map_some', tagsHold]
      cases h : isa v (E.matlabClass arg)
      · simp
      · simpa using hnext

theorem evalGuard_overloadBranch {Value : Type} (isa : Value → String → Bool)
    (E : Collaborators) (args : ArgumentList) (returnVal : ReturnValue) (id : Nat)
    (varargin : List Value) :
    evalGuard isa varargin (overloadBranch E args returnVal id).conditions =
      some (predicateHolds isa E args varargin) := by
  simp only [overloadBranch, evalGuard, Condition.eval, predicateHolds]
  by_cases h : varargin.length = args.length
  · have := evalGuard_isaConditions isa E args [] varargin h
    simp only [List.nil_append, List.length_nil, Nat.zero_add] at this
    simp [h, this]
  · simp [h]

/-- A run of the chain of a list of overloads calls the id of the first overload whose
predicate holds, reaches the error branch when there is none, and never fails. -/
theorem runChain_overloadChain {Value : Type} (isa : Value → String → Bool)
    (E : Collaborators) (varargin : List Value) (os : List (ArgumentList × ReturnValue)) :
    ∀ n : Nat,
      (∀ id, runChain isa varargin (overloadChain E os n) = Outcome.call id ↔
        ∃ (i : Nat) (a : ArgumentList) (r : ReturnValue), os[i]? = some (a, r) ∧
          id = n + i ∧ predicateHolds isa E a varargin = true ∧
          ∀ (j : Nat) (a' : ArgumentList) (r' : ReturnValue), j < i →
            os[j]? = some (a', r') → predicateHolds isa E a' varargin = false) ∧
      (runChain isa varargin (overloadChain E os n) = Outcome.noMatch ↔
        ∀ (i : Nat) (a : ArgumentList) (r : ReturnValue), os[i]? = some (a, r) →
          predicateHolds isa E a varargin = false) ∧
      runChain isa varargin (overloadChain E os n) ≠ Outcome.fault := by
  induction os with
  | nil =>
    intro n
    simp [overloadChain, runChain]
  | cons o rest ih =>
    intro n
    obtain ⟨a, r⟩ := o
    obtain ⟨ihcall, ihnone, ihfault⟩ := ih (n + 1)
    simp only [overloadChain, runChain, evalGuard_overloadBranch]
    cases hp : predicateHolds isa E a varargin
    · simp only
      refine ⟨?_, ?_, ihfault⟩
      · intro id
        rw [ihcall id]
        constructor
        · rintro ⟨i, a', r', hi, hid, hpi, hbefore⟩
          refine ⟨i + 1, a', r', by simpa using hi, by omega, hpi, ?_⟩
          intro j a'' r'' hj hlook
          cases j with
          | zero =>
            simp only [List.getElem?_cons_zero, Option.some.injEq, Prod.mk.injEq] at hlook
            rw [← hlook.1]
            exact hp
          | succ j => exact hbefore j a'' r'' (by omega) (by simpa using hlook)
        · rintro ⟨i, a', r', hi, hid, hpi, hbefore⟩
          cases i with
          | zero =>
            simp only [List.getElem?_cons_zero, Option.some.injEq, Prod.mk.injEq] at hi
            rw [← hi.1, hp] at hpi
            cases hpi
          | succ i =>
            refine ⟨i, a', r', by simpa using hi, by omega, hpi, ?_⟩
            intro j a'' r'' hj hlook
            exact hbefore (j + 1) a'' r'' (by omega) (by simpa using hlook)
      · rw [ihnone]
        constructor
        · intro h i a' r' hi
          cases i with
          | zero =>
            simp only [List.getElem?_cons_zero, Option.some.injEq, Prod.mk.injEq] at hi
            rw [← hi.1]
            exact hp
          | succ i => exact h i a' r' (by simpa using hi)
        · intro h i a' r' hi
          exact h (i + 1) a' r' (by simpa using hi)
    · simp only
      refine ⟨?_, ?_, by simp⟩
      · intro id
        constructor
        · intro h
          simp only [overloadBranch, Outcome.call.injEq] at h
          exact ⟨0, a, r, by simp, by omega, hp, by intro j _ _ hj; omega⟩
        · rintro ⟨i, a', r', hi, hid, hpi, hbefore⟩
          cases i with
          | zero => simp [overloadBranch, hid]
          | succ i =>
            have := hbefore 0 a r (by omega) (by simp)
            rw [hp] at this
            cases this
      · constructor
        · intro h
          cases h
        · intro h
          have := h 0 a r (by simp)
          rw [hp] at this
          cases this

theorem tagsHold_congr {Value : Type} (isa : Value → String → Bool) (E : Collaborators)
    (a b : ArgumentList) (varargin : List Value)
    (htags : a.map E.matlabClass = b.map E.matlabClass) :
    tagsHold isa E a varargin = tagsHold isa E b varargin := by
  induction a generalizing b varargin with
  | nil =>
    cases b with
    | nil => rfl
    | cons y ys => simp at htags
  | cons x xs ih =>
    cases b with
    | nil => simp at htags
    | cons y ys =>
      simp only [List.map_cons, List.cons.injEq] at htags
      cases varargin with
      | nil => rfl
      | cons v vs => simp only [tagsHold, htags.1, ih ys vs htags.2]

theorem predicateHolds_congr {Value : Type} (isa : Value → String → Bool)
    (E : Collaborators) (a b : ArgumentList) (varargin : List Value)
    (hlen : a.length = b.length) (htags : a.map E.matlabClass = b.map E.matlabClass) :
    predicateHolds isa E a varargin = predicateHolds isa E b varargin := by
  simp only [predicateHolds, hlen, tagsHold_congr isa E a b varargin htags]

theorem returnVal_exists (self : StaticMethod)
    (hwf : self.returnVals.length = self.argLists.length) (i : Nat) (a : ArgumentList)
    (ha : self.argLists[i]? = some a) : ∃ r, self.returnVals[i]? = some r := by
  have hi : i < self.returnVals.length := by
    rw [hwf]
    exact lookup_lt _ i a ha
  exact ⟨self.returnVals[i], List.getElem?_eq_getElem hi⟩

/-! ## Decimal renderings and symbol names -/

theorem digitChar_spec :
    ∀ k, k < 10 → (Nat.digitChar k).toNat - 48 = k ∧ Nat.digitChar k ≠ '_' ∧
      Nat.digitChar k ≠ '-' := by
  decide

theorem decimalValue_snoc (l : List Char) (c : Char) :
    decimalValue (l ++ [c]) = decimalValue l * 10 + (c.toNat - 48) := by
  simp [decimalValue, List.foldl_append]

/-- The digits that `Nat.toDigitsCore` puts in front of its accumulator. -/
theorem toDigitsCore_spec (fuel : Nat) :
    ∀ (n : Nat) (ds : List Char), n < fuel →
      ∃ l, Nat.toDigitsCore 10 fuel n ds = l ++ ds ∧ l ≠ [] ∧ decimalValue l = n ∧
        ∀ c ∈ l, c ≠ '_' ∧ c ≠ '-' := by
  induction fuel with
  | zero =>
    intro n ds h
    omega
  | succ fuel ih =>
    intro n ds h
    have hd := digitChar_spec (n % 10) (Nat.mod_lt n (by omega))
    by_cases h0 : n / 10 = 0
    · refine ⟨[Nat.digitChar (n % 10)], ?_, by simp, ?_, ?_⟩
      · simp [Nat.toDigitsCore, h0]
      · simp only [decimalValue, List.foldl_cons, List.foldl_nil, Nat.zero_mul,
          Nat.zero_add, hd.1]
        omega
      · intro c hc
        simp only [List.mem_singleton] at hc
        subst hc
        exact hd.2
    · obtain ⟨l, hl, _, hval, hchars⟩ :=
        ih (n / 10) (Nat.digitChar (n % 10) :: ds) (by omega)
      refine ⟨l ++ [Nat.digitChar (n % 10)], ?_, by simp, ?_, ?_⟩
      · simp [Nat.toDigitsCore, h0, hl]
      · rw [decimalValue_snoc, hval, hd.1]
        omega
      · intro c hc
        rcases List.mem_append.mp hc with hc | hc
        · exact hchars c hc
        · simp only [List.mem_singleton] at hc
          subst hc
          exact hd.2

theorem repr_spec (n : Nat) :
    (Nat.repr n).data ≠ [] ∧ decimalValue (Nat.repr n).data = n ∧
      ∀ c ∈ (Nat.repr n).data, c ≠ '_' ∧ c ≠ '-' := by
  obtain ⟨l, hl, hne, hval, hchars⟩ := toDigitsCore_spec (n + 1) n [] (by omega)
  have hdata : (Nat.repr n).data = l := by
    simp [Nat.repr, Nat.toDigits, hl, List.asString]
  rw [hdata]
  exact ⟨hne, hval, hchars⟩

theorem repr_injective (a b : Nat) (h : Nat.repr a = Nat.repr b) : a = b := by
  have ha := (repr_spec a).2.1
  have hb := (repr_spec b).2.1
  rw [h] at ha
  omega

theorem lexical_cast_no_underscore (i : Int) : '_' ∉ (lexical_cast i).data := by
  intro hmem
  cases i with
  | ofNat n => exact ((repr_spec n).2.2 _ hmem).1 rfl
  | negSucc n =>
    simp only [lexical_cast, String.data_append, List.mem_append] at hmem
    rcases hmem with hmem | hmem
    · revert hmem
      decide
    · exact ((repr_spec (n + 1)).2.2 _ hmem).1 rfl

theorem lexical_cast_injective (i j : Int) (h : lexical_cast i = lexical_cast j) :
    i = j := by
  have hminus : ("-" : String).data = ['-'] := rfl
  cases i with
  | ofNat a =>
    cases j with
    | ofNat b =>
      simp only [lexical_cast] at h
      rw [repr_injective a b h]
    | negSucc b =>
      exfalso
      simp only [lexical_cast] at h
      have hdata := congrArg String.data h
      rw [String.data_append, hminus] at hdata
      have hmem : '-' ∈ (Nat.repr a).data := by
        rw [hdata]
        simp
      exact ((repr_spec a).2.2 _ hmem).2 rfl
  | negSucc a =>
    cases j with
    | ofNat b =>
      exfalso
      simp only [lexical_cast] at h
      have hdata := congrArg String.data h
      rw [String.data_append, hminus] at hdata
      have hmem : '-' ∈ (Nat.repr b).data := by
        rw [← hdata]
        simp
      exact ((repr_spec b).2.2 _ hmem).2 rfl
    | negSucc b =>
      simp only [lexical_cast] at h
      have hdata := congrArg String.data h
      rw [String.data_append, String.data_append, hminus] at hdata
      simp only [List.singleton_append, List.cons.injEq, true_and] at hdata
      have := repr_injective (a + 1) (b + 1) (String.ext hdata)
      have hab : a = b := by omega
      rw [hab]

/-- What follows the last underscore of a text is determined by the text. -/
theorem after_last_underscore (x y d₁ d₂ : List Char) (h₁ : '_' ∉ d₁) (h₂ : '_' ∉ d₂)
    (h : x ++ '_' :: d₁ = y ++ '_' :: d₂) : d₁ = d₂ := by
  rcases List.append_eq_append_iff.mp h with ⟨m, _, hm⟩ | ⟨m, _, hm⟩
  · cases m with
    | nil =>
      simp only [List.nil_append, List.cons.injEq, true_and] at hm
      exact hm
    | cons c m =>
      simp only [List.cons_append, List.cons.injEq] at hm
      exact absurd (by rw [hm.2]; simp) h₁
  · cases m with
    | nil =>
      simp only [List.nil_append, List.cons.injEq, true_and] at hm
      exact hm.symm
    | cons c m =>
      simp only [List.cons_append, List.cons.injEq] at hm
      exact absurd (by rw [hm.2]; simp) h₂

theorem symbolName_injective (C C' M M' : String) (i j : Int)
    (h : symbolName C M i = symbolName C' M' j) : i = j := by
  have hunder : ("_" : String).data = ['_'] := rfl
  have hdata := congrArg String.data h
  simp only [symbolName, String.data_append, hunder, List.append_assoc,
    List.singleton_append] at hdata
  have hd := after_last_underscore (C.data ++ '_' :: M.data) (C'.data ++ '_' :: M'.data)
    _ _ (lexical_cast_no_underscore i) (lexical_cast_no_underscore j)
    (by simpa [List.append_assoc] using hdata)
  exact lexical_cast_injective i j (String.ext hd)

/-- A session of well-formed methods runs to its end; it leaves the table it started from
in place and appends, at every new position, a symbol name that carries that position. -/
theorem emitAll_spec (E : Collaborators) (wrapperName : String)
    (using_namespaces : List String) (es : List Emission) :
    ∀ s : Sinks,
      (∀ e ∈ es, e.method.returnVals.length = e.method.argLists.length) →
      ∃ s' appended,
        emitAll E wrapperName using_namespaces es s = some s' ∧
        s'.functionNames = s.functionNames ++ appended ∧
        appended.length = (es.map (fun e => e.method.argLists.length)).sum ∧
        ∀ p, p < appended.length → ∃ C M,
          appended[p]? = some (symbolName C M (Int.ofNat (s.functionNames.length + p))) := by
  induction es with
  | nil =>
    intro s _
    exact ⟨s, [], rfl, by simp, by simp, by simp⟩
  | cons e rest ih =>
    intro s hwf
    have he := hwf e (by simp)
    have hstep := proxy_wrapper_fragments_eq E e.method s.proxyFile s.wrapperFile
      e.cppClassName e.matlabClassName wrapperName using_namespaces s.functionNames he
    obtain ⟨s', appended, hrun, htable, hlen, hidx⟩ :=
      ih ⟨⟨s.proxyFile.oss ++ proxyHeader e.method.name ++
          String.join (branchTexts E wrapperName e.method.overloads 0
            s.functionNames.length) ++
          errorBranch e.matlabClassName e.method.name ++ proxyFooter⟩,
        ⟨s.wrapperFile.oss ++ String.join (nativeEntries E e.cppClassName
          e.matlabClassName e.method.name using_namespaces e.method.overloads
          s.functionNames.length)⟩,
        s.functionNames ++ symbolNames e.matlabClassName e.method.name
          e.method.argLists.length s.functionNames.length⟩
        (fun e' he' => hwf e' (by simp [he']))
    refine ⟨s', symbolNames e.matlabClassName e.method.name e.method.argLists.length
      s.functionNames.length ++ appended, ?_, ?_, ?_, ?_⟩
    · simp only [emitAll, hstep]
      exact hrun
    · rw [htable, List.append_assoc]
    · simp [symbolNames_length, hlen]
    · intro p hp
      rcases Nat.lt_or_ge p e.method.argLists.length with hlt | hge
      · refine ⟨e.matlabClassName, e.method.name, ?_⟩
        rw [List.getElem?_append_left (by rw [symbolNames_length]; exact hlt)]
        exact symbolNames_lookup _ _ _ _ p hlt
      · have hp' : p - e.method.argLists.length < appended.length := by
          simp only [List.length_append, symbolNames_length] at hp
          omega
        obtain ⟨C, M, hlook⟩ := hidx (p - e.method.argLists.length) hp'
        refine ⟨C, M, ?_⟩
        rw [List.getElem?_append_right (by rw [symbolNames_length]; exact hge),
          symbolNames_length, hlook]
        simp only [List.length_append, symbolNames_length]
        rw [show s.functionNames.length + e.method.argLists.length +
          (p - e.method.argLists.length) = s.functionNames.length + p by omega]

theorem nodup_of_indexed (n : Nat) (l : List String)
    (h : ∀ p, p < l.length → ∃ C M, l[p]? = some (symbolName C M (Int.ofNat (n + p)))) :
    l.Nodup := by
  rw [List.nodup_iff_getElem?_ne_getElem?]
  intro i j hij hj heq
  obtain ⟨C, M, hi'⟩ := h i (by omega)
  obtain ⟨C', M', hj'⟩ := h j hj
  rw [hi', hj', Option.some.injEq] at heq
  have := symbolName_injective C C' M M' _ _ heq
  simp only [Int.ofNat_eq_coe, Nat.cast_inj] at this
  omega

theorem registerAll_argLists (calls : List Registration) :
    ∀ self : StaticMethod,
      (registerAll self calls).argLists = self.argLists ++ calls.map Registration.args := by
  induction calls with
  | nil =>
    intro self
    simp [registerAll]
  | cons c rest ih =>
    intro self
    simp [registerAll, ih, addOverload]

theorem registerAll_returnVals (calls : List Registration) :
    ∀ self : StaticMethod,
      (registerAll self calls).returnVals =
        self.returnVals ++ calls.map Registration.retVal := by
  induction calls with
  | nil =>
    intro self
    simp [registerAll]
  | cons c rest ih =>
    intro self
    simp [registerAll, ih, addOverload]

/-! ## The native entries by position -/

theorem entry_lookup (E : Collaborators) (self : StaticMethod)
    (cppClassName matlabClassName : String) (using_namespaces : List String) (n i : Nat)
    (args : ArgumentList) (returnVal : ReturnValue)
    (ha : self.argLists[i]? = some args) (hr : self.returnVals[i]? = some returnVal) :
    (nativeEntries E cppClassName matlabClassName self.name using_namespaces
        self.overloads n)[i]? =
      some (nativeEntry E cppClassName matlabClassName self.name using_namespaces args
        returnVal (Int.ofNat (n + i))) :=
  nativeEntries_lookup E cppClassName matlabClassName self.name using_namespaces
    self.overloads n i args returnVal (overloads_of_lookup self i args returnVal ha hr)

theorem entries_length (E : Collaborators) (self : StaticMethod)
    (cppClassName matlabClassName : String) (using_namespaces : List String) (n : Nat)
    (hwf : self.returnVals.length = self.argLists.length) :
    (nativeEntries E cppClassName matlabClassName self.name using_namespaces
        self.overloads n).length = self.argLists.length := by
  rw [nativeEntries_length, overloads_length self hwf]

/-- A native entry, cut at the call of the wrapped method. -/
theorem nativeEntry_split (E : Collaborators) (cppClassName matlabClassName name : String)
    (using_namespaces : List String) (args : ArgumentList) (returnVal : ReturnValue)
    (id : Int) :
    nativeEntry E cppClassName matlabClassName name using_namespaces args returnVal id =
      entryOpening E matlabClassName name using_namespaces id ++
        resultAliases E returnVal ++ entryChecks E cppClassName matlabClassName name args ++
        ("  " ++ (if returnVal.type1 = "void" then ""
            else E.return_type returnVal true pairing.pair ++ " result = ") ++
          cppClassName ++ "::" ++ name ++ "(" ++ E.names args ++ ");\n") ++
        E.wrap_result returnVal ++ "\x7d\n" := by
  simp only [nativeEntry, entryOpening, entryChecks, ne_eq, ite_not, String.append_assoc]

theorem upperName_cons (c : Char) (cs : List Char) :
    upperName (String.mk (c :: cs)) = String.mk (c.toUpper :: cs) := rfl

theorem symbolName_first_char (C : String) (c c' : Char) (cs : List Char) (id : Int)
    (h : symbolName C (String.mk (c' :: cs)) id = symbolName C (String.mk (c :: cs)) id) :
    c' = c := by
  have hunder : ("_" : String).data = ['_'] := rfl
  have hdata := congrArg String.data h
  simp only [symbolName, String.data_append, hunder, List.append_assoc,
    List.singleton_append, List.cons_append] at hdata
  have := List.append_cancel_left hdata
  simpa using this

set_option maxRecDepth 100000

/-- C1: for a method with k overloads emitted on a function table of length n, the proxy
text is the header, one branch per overload, the error branch and the footer; the call
line of branch i carries the id n+i, the table entry at position n+i is the symbol name
that `wrapper_fragment` returns for overload i with that id, and this name ends in the
decimal rendering of n+i. -/
theorem proxy_id_indexes_function_table (E : Collaborators) (self : StaticMethod)
    (proxyFile wrapperFile : FileWriter)
    (cppClassName matlabClassName wrapperName : String) (using_namespaces : List String)
    (functionNames : List String)
    (hwf : self.returnVals.length = self.argLists.length) :
    ∃ s branches,
      proxy_wrapper_fragments E self proxyFile wrapperFile cppClassName matlabClassName
        wrapperName using_namespaces functionNames = some s ∧
      s.proxyFile.oss = proxyFile.oss ++ proxyHeader self.name ++ String.join branches ++
        errorBranch matlabClassName self.name ++ proxyFooter ∧
      branches.length = self.argLists.length ∧
      ∀ i args returnVal, self.argLists[i]? = some args →
        self.returnVals[i]? = some returnVal →
        branches[i]? = some (guardLine E i args ++
          ("        " ++ outputBinding returnVal ++ wrapperName ++ "(" ++
            decimal (functionNames.length + i) ++ ", varargin\x7b:\x7d);\n")) ∧
        ∃ symbol,
          (∀ file, (wrapper_fragment E self file cppClassName matlabClassName
            (Int.ofNat i) (Int.ofNat (functionNames.length + i)) using_namespaces).map
              Prod.snd = some symbol) ∧
          s.functionNames[functionNames.length + i]? = some symbol ∧
          ∃ front, symbol = front ++ decimal (functionNames.length + i) := by
  refine ⟨_, branchTexts E wrapperName self.overloads 0 functionNames.length,
    proxy_wrapper_fragments_eq E self proxyFile wrapperFile cppClassName matlabClassName
      wrapperName using_namespaces functionNames hwf, rfl, ?_, ?_⟩
  · rw [branchTexts_length, overloads_length self hwf]
  · intro i args returnVal ha hr
    have hi : i < self.argLists.length := lookup_lt _ i args ha
    refine ⟨?_, symbolName matlabClassName self.name (Int.ofNat (functionNames.length + i)),
      ?_, ?_, ?_⟩
    · rw [branchTexts_lookup E wrapperName self.overloads 0 functionNames.length i args
        returnVal (overloads_of_lookup self i args returnVal ha hr)]
      simp only [branchText, callLine, Nat.zero_add]
    · intro file
      rw [wrapper_fragment_eq E self file cppClassName matlabClassName i _ using_namespaces
        args returnVal ha hr]
      rfl
    · exact table_lookup functionNames matlabClassName self.name self.argLists.length i hi
    · exact ⟨matlabClassName ++ "_" ++ self.name ++ "_", rfl⟩

/-- C1 on the example method, emitted after two earlier table entries. -/
theorem proxy_id_indexes_function_table_witness :
    exampleMethod.returnVals.length = exampleMethod.argLists.length ∧
    ∃ s branches,
      proxy_wrapper_fragments exampleCollaborators exampleMethod ⟨"% proxy\n"⟩ ⟨""⟩ "Bar"
        "Bar" "wrapper" ["gtsam"] ["a_0", "a_1"] = some s ∧
      s.proxyFile.oss = (⟨"% proxy\n"⟩ : FileWriter).oss ++ proxyHeader exampleMethod.name ++
        String.join branches ++ errorBranch "Bar" exampleMethod.name ++ proxyFooter ∧
      branches.length = exampleMethod.argLists.length ∧
      ∀ i args returnVal, exampleMethod.argLists[i]? = some args →
        exampleMethod.returnVals[i]? = some returnVal →
        branches[i]? = some (guardLine exampleCollaborators i args ++
          ("        " ++ outputBinding returnVal ++ "wrapper" ++ "(" ++
            decimal (["a_0", "a_1"].length + i) ++ ", varargin\x7b:\x7d);\n")) ∧
        ∃ symbol,
          (∀ file, (wrapper_fragment exampleCollaborators exampleMethod file "Bar" "Bar"
            (Int.ofNat i) (Int.ofNat (["a_0", "a_1"].length + i)) ["gtsam"]).map
              Prod.snd = some symbol) ∧
          s.functionNames[["a_0", "a_1"].length + i]? = some symbol ∧
          ∃ front, symbol = front ++ decimal (["a_0", "a_1"].length + i) :=
  ⟨by decide, proxy_id_indexes_function_table exampleCollaborators exampleMethod
    ⟨"% proxy\n"⟩ ⟨""⟩ "Bar" "Bar" "wrapper" ["gtsam"] ["a_0", "a_1"] (by decide)⟩

/-- C2: for a method with k overloads the proxy text holds, after the function header,
exactly k branches in registration order, the first opened by `if` and every later one
by `elseif`, then one `else` branch that calls `error`, then the closing `end` lines. -/
theorem proxy_branch_chain (E : Collaborators) (self : StaticMethod)
    (proxyFile wrapperFile : FileWriter)
    (cppClassName matlabClassName wrapperName : String) (using_namespaces : List String)
    (functionNames : List String)
    (hwf : self.returnVals.length = self.argLists.length) :
    ∃ s branches,
      proxy_wrapper_fragments E self proxyFile wrapperFile cppClassName matlabClassName
        wrapperName using_namespaces functionNames = some s ∧
      s.proxyFile.oss = proxyFile.oss ++
        ("    function varargout = " ++ upperName self.name ++ "(varargin)\n") ++
        String.join branches ++
        ("      else\n" ++ "        error('Arguments do not match any overload of function " ++
          matlabClassName ++ "." ++ upperName self.name ++ "');\n") ++
        ("      end\n" ++ "    end\n") ∧
      branches.length = self.argLists.length ∧
      ∀ i args returnVal, self.argLists[i]? = some args →
        self.returnVals[i]? = some returnVal →
        branches[i]? = some ("      " ++ (if i = 0 then "if " else "elseif ") ++
          predicateText E args ++ "\n" ++
          callLine wrapperName returnVal (functionNames.length + i)) := by
  refine ⟨_, branchTexts E wrapperName self.overloads 0 functionNames.length,
    proxy_wrapper_fragments_eq E self proxyFile wrapperFile cppClassName matlabClassName
      wrapperName using_namespaces functionNames hwf, rfl, ?_, ?_⟩
  · rw [branchTexts_length, overloads_length self hwf]
  · intro i args returnVal ha hr
    rw [branch_lookup E self wrapperName functionNames.length i args returnVal ha hr]
    simp only [branchText, guardLine, String.append_assoc]

/-- C2 on the example method. -/
theorem proxy_branch_chain_witness :
    exampleMethod.returnVals.length = exampleMethod.argLists.length ∧
    ∃ s branches,
      proxy_wrapper_fragments exampleCollaborators exampleMethod ⟨""⟩ ⟨""⟩ "Bar" "Bar"
        "wrapper" ["gtsam"] [] = some s ∧
      s.proxyFile.oss = (⟨""⟩ : FileWriter).oss ++
        ("    function varargout = " ++ upperName exampleMethod.name ++ "(varargin)\n") ++
        String.join branches ++
        ("      else\n" ++ "        error('Arguments do not match any overload of function " ++
          "Bar" ++ "." ++ upperName exampleMethod.name ++ "');\n") ++
        ("      end\n" ++ "    end\n") ∧
      branches.length = exampleMethod.argLists.length ∧
      ∀ i args returnVal, exampleMethod.argLists[i]? = some args →
        exampleMethod.returnVals[i]? = some returnVal →
        branches[i]? = some ("      " ++ (if i = 0 then "if " else "elseif ") ++
          predicateText exampleCollaborators args ++ "\n" ++
          callLine "wrapper" returnVal (([] : List String).length + i)) :=
  ⟨by decide, proxy_branch_chain exampleCollaborators exampleMethod ⟨""⟩ ⟨""⟩ "Bar" "Bar"
    "wrapper" ["gtsam"] [] (by decide)⟩

/-- C3: the guard of the branch of an overload with arity a is `length(varargin) == a`,
followed for a > 0 by ` && ` and the a checks `isa(varargin{j},'tag_j')`, j = 1..a, in
argument order and joined by ` && `; for a = 0 nothing follows the arity test. -/
theorem proxy_branch_predicate (E : Collaborators) (self : StaticMethod)
    (proxyFile wrapperFile : FileWriter)
    (cppClassName matlabClassName wrapperName : String) (using_namespaces : List String)
    (functionNames : List String)
    (hwf : self.returnVals.length = self.argLists.length) :
    ∃ s branches,
      proxy_wrapper_fragments E self proxyFile wrapperFile cppClassName matlabClassName
        wrapperName using_namespaces functionNames = some s ∧
      s.proxyFile.oss = proxyFile.oss ++ proxyHeader self.name ++ String.join branches ++
        errorBranch matlabClassName self.name ++ proxyFooter ∧
      branches.length = self.argLists.length ∧
      ∀ i args returnVal, self.argLists[i]? = some args →
        self.returnVals[i]? = some returnVal →
        ∃ checks : List String,
          checks.length = args.length ∧
          (∀ j arg, args[j]? = some arg →
            checks[j]? = some ("isa(varargin\x7b" ++ decimal (j + 1) ++ "\x7d,'" ++
              E.matlabClass arg ++ "')")) ∧
          branches[i]? = some ("      " ++ (if i = 0 then "if " else "elseif ") ++
            ("length(varargin) == " ++ decimal args.length ++
              (if args.length = 0 then "" else " && " ++ " && ".intercalate checks)) ++
            "\n" ++ callLine wrapperName returnVal (functionNames.length + i)) := by
  refine ⟨_, branchTexts E wrapperName self.overloads 0 functionNames.length,
    proxy_wrapper_fragments_eq E self proxyFile wrapperFile cppClassName matlabClassName
      wrapperName using_namespaces functionNames hwf, rfl, ?_, ?_⟩
  · rw [branchTexts_length, overloads_length self hwf]
  · intro i args returnVal ha hr
    refine ⟨isaChecks E args 1, isaChecks_length E args 1, ?_, ?_⟩
    · intro j arg hj
      rw [isaChecks_lookup E args 1 j arg hj, Nat.add_comm 1 j]
      rfl
    · rw [branch_lookup E self wrapperName functionNames.length i args returnVal ha hr]
      simp only [branchText, guardLine, predicateText, String.append_assoc]
      rcases Nat.eq_zero_or_pos args.length with h0 | hpos
      · simp only [h0, Nat.lt_irrefl, if_true, if_false]
      · simp only [hpos, Nat.pos_iff_ne_zero.mp hpos, if_true, if_false]

/-- C3 on the example method. -/
theorem proxy_branch_predicate_witness :
    exampleMethod.returnVals.length = exampleMethod.argLists.length ∧
    ∃ s branches,
      proxy_wrapper_fragments exampleCollaborators exampleMethod ⟨""⟩ ⟨""⟩ "Bar" "Bar"
        "wrapper" ["gtsam"] [] = some s ∧
      s.proxyFile.oss = (⟨""⟩ : FileWriter).oss ++ proxyHeader exampleMethod.name ++
        String.join branches ++ errorBranch "Bar" exampleMethod.name ++ proxyFooter ∧
      branches.length = exampleMethod.argLists.length ∧
      ∀ i args returnVal, exampleMethod.argLists[i]? = some args →
        exampleMethod.returnVals[i]? = some returnVal →
        ∃ checks : List String,
          checks.length = args.length ∧
          (∀ j arg, args[j]? = some arg →
            checks[j]? = some ("isa(varargin\x7b" ++ decimal (j + 1) ++ "\x7d,'" ++
              exampleCollaborators.matlabClass arg ++ "')")) ∧
          branches[i]? = some ("      " ++ (if i = 0 then "if " else "elseif ") ++
            ("length(varargin) == " ++ decimal args.length ++
              (if args.length = 0 then "" else " && " ++ " && ".intercalate checks)) ++
            "\n" ++ callLine "wrapper" returnVal (([] : List String).length + i)) :=
  ⟨by decide, proxy_branch_predicate exampleCollaborators exampleMethod ⟨""⟩ ⟨""⟩ "Bar"
    "Bar" "wrapper" ["gtsam"] [] (by decide)⟩

/-- C4: the call line of the branch of an overload binds its outputs by the return
shape: nothing for a void return (no pair, category VOID), `varargout{1} = ` for a single
return, `[ varargout{1} varargout{2} ] = ` for a pair; in each case the wrapper is called
with the id followed by `varargin{:}`. -/
theorem proxy_output_binding (E : Collaborators) (self : StaticMethod)
    (proxyFile wrapperFile : FileWriter)
    (cppClassName matlabClassName wrapperName : String) (using_namespaces : List String)
    (functionNames : List String)
    (hwf : self.returnVals.length = self.argLists.length) :
    ∃ s branches,
      proxy_wrapper_fragments E self proxyFile wrapperFile cppClassName matlabClassName
        wrapperName using_namespaces functionNames = some s ∧
      s.proxyFile.oss = proxyFile.oss ++ proxyHeader self.name ++ String.join branches ++
        errorBranch matlabClassName self.name ++ proxyFooter ∧
      branches.length = self.argLists.length ∧
      ∀ i args returnVal, self.argLists[i]? = some args →
        self.returnVals[i]? = some returnVal →
        ∃ call : String,
          branches[i]? = some (guardLine E i args ++ call) ∧
          (returnVal.isPair = false → returnVal.category1 = return_category.VOID →
            call = "        " ++ wrapperName ++ "(" ++ decimal (functionNames.length + i) ++
              ", varargin\x7b:\x7d);\n") ∧
          (returnVal.isPair = false → returnVal.category1 ≠ return_category.VOID →
            call = "        " ++ "varargout\x7b1\x7d = " ++ wrapperName ++ "(" ++
              decimal (functionNames.length + i) ++ ", varargin\x7b:\x7d);\n") ∧
          (returnVal.isPair = true →
            call = "        " ++ "[ varargout\x7b1\x7d varargout\x7b2\x7d ] = " ++
              wrapperName ++ "(" ++ decimal (functionNames.length + i) ++
              ", varargin\x7b:\x7d);\n") := by
  refine ⟨_, branchTexts E wrapperName self.overloads 0 functionNames.length,
    proxy_wrapper_fragments_eq E self proxyFile wrapperFile cppClassName matlabClassName
      wrapperName using_namespaces functionNames hwf, rfl, ?_, ?_⟩
  · rw [branchTexts_length, overloads_length self hwf]
  · intro i args returnVal ha hr
    refine ⟨callLine wrapperName returnVal (functionNames.length + i), ?_, ?_, ?_, ?_⟩
    · rw [branch_lookup E self wrapperName functionNames.length i args returnVal ha hr]
      rfl
    · intro hp hv
      simp only [callLine, outputBinding, hp, hv, if_true, if_false, Bool.false_eq_true,
        String.append_empty, String.append_assoc, String.empty_append]
    · intro hp hv
      simp only [callLine, outputBinding, hp, hv, if_true, if_false, Bool.false_eq_true,
        String.append_assoc]
    · intro hp
      simp only [callLine, outputBinding, hp, if_true, String.append_assoc]

/-- C4 on the example method, whose overloads return nothing, one value and a pair. -/
theorem proxy_output_binding_witness :
    exampleMethod.returnVals.length = exampleMethod.argLists.length ∧
    ∃ s branches,
      proxy_wrapper_fragments exampleCollaborators exampleMethod ⟨""⟩ ⟨""⟩ "Bar" "Bar"
        "wrapper" ["gtsam"] [] = some s ∧
      s.proxyFile.oss = (⟨""⟩ : FileWriter).oss ++ proxyHeader exampleMethod.name ++
        String.join branches ++ errorBranch "Bar" exampleMethod.name ++ proxyFooter ∧
      branches.length = exampleMethod.argLists.length ∧
      ∀ i args returnVal, exampleMethod.argLists[i]? = some args →
        exampleMethod.returnVals[i]? = some returnVal →
        ∃ call : String,
          branches[i]? = some (guardLine exampleCollaborators i args ++ call) ∧
          (returnVal.isPair = false → returnVal.category1 = return_category.VOID →
            call = "        " ++ "wrapper" ++ "(" ++
              decimal (([] : List String).length + i) ++ ", varargin\x7b:\x7d);\n") ∧
          (returnVal.isPair = false → returnVal.category1 ≠ return_category.VOID →
            call = "        " ++ "varargout\x7b1\x7d = " ++ "wrapper" ++ "(" ++
              decimal (([] : List String).length + i) ++ ", varargin\x7b:\x7d);\n") ∧
          (returnVal.isPair = true →
            call = "        " ++ "[ varargout\x7b1\x7d varargout\x7b2\x7d ] = " ++
              "wrapper" ++ "(" ++ decimal (([] : List String).length + i) ++
              ", varargin\x7b:\x7d);\n") :=
  ⟨by decide, proxy_output_binding exampleCollaborators exampleMethod ⟨""⟩ ⟨""⟩ "Bar" "Bar"
    "wrapper" ["gtsam"] [] (by decide)⟩

/-- C5 (as amended): the proxy text is the rendering of a chain of branches whose run, on
every runtime argument list, never fails in a guard and calls exactly the id of the first
overload in registration order whose predicate (exact arity, every positional type tag)
holds, reaching the error branch when no predicate holds. If overloads i < j have the
same arity and the same type tags, branch j is never taken, and whenever the predicate of
j holds the call goes to the first overload whose predicate holds, which stands at or
before i and is i itself exactly when no overload before i matches. -/
theorem proxy_first_match {Value : Type} (isa : Value → String → Bool)
    (E : Collaborators) (self : StaticMethod) (proxyFile wrapperFile : FileWriter)
    (cppClassName matlabClassName wrapperName : String) (using_namespaces : List String)
    (functionNames : List String)
    (hwf : self.returnVals.length = self.argLists.length) :
    ∃ s chain,
      proxy_wrapper_fragments E self proxyFile wrapperFile cppClassName matlabClassName
        wrapperName using_namespaces functionNames = some s ∧
      s.proxyFile.oss = proxyFile.oss ++ proxyHeader self.name ++
        String.join (renderChain wrapperName chain 0) ++
        errorBranch matlabClassName self.name ++ proxyFooter ∧
      ∀ varargin : List Value,
        runChain isa varargin chain ≠ Outcome.fault ∧
        (∀ id, runChain isa varargin chain = Outcome.call id ↔
          ∃ (i : Nat) (args : ArgumentList), self.argLists[i]? = some args ∧
            id = functionNames.length + i ∧ predicateHolds isa E args varargin = true ∧
            ∀ (j : Nat) (earlier : ArgumentList), j < i →
              self.argLists[j]? = some earlier →
              predicateHolds isa E earlier varargin = false) ∧
        (runChain isa varargin chain = Outcome.noMatch ↔
          ∀ (i : Nat) (args : ArgumentList), self.argLists[i]? = some args →
            predicateHolds isa E args varargin = false) ∧
        ∀ (i j : Nat) (first second : ArgumentList), i < j →
          self.argLists[i]? = some first → self.argLists[j]? = some second →
          first.length = second.length →
          first.map E.matlabClass = second.map E.matlabClass →
          runChain isa varargin chain ≠ Outcome.call (functionNames.length + j) ∧
          (predicateHolds isa E second varargin = true →
            ∃ h, h ≤ i ∧
              runChain isa varargin chain = Outcome.call (functionNames.length + h) ∧
              (h = i ↔ ∀ (g : Nat) (earlier : ArgumentList), g < i →
                self.argLists[g]? = some earlier →
                predicateHolds isa E earlier varargin = false)) := by
  obtain ⟨hcallAll, hnoneAll⟩ :
      (∀ varargin : List Value, ∀ id,
        runChain isa varargin (overloadChain E self.overloads functionNames.length) =
            Outcome.call id ↔
          ∃ (i : Nat) (args : ArgumentList), self.argLists[i]? = some args ∧
            id = functionNames.length + i ∧ predicateHolds isa E args varargin = true ∧
            ∀ (j : Nat) (earlier : ArgumentList), j < i →
              self.argLists[j]? = some earlier →
              predicateHolds isa E earlier varargin = false) ∧
      (∀ varargin : List Value,
        runChain isa varargin (overloadChain E self.overloads functionNames.length) =
            Outcome.noMatch ↔
          ∀ (i : Nat) (args : ArgumentList), self.argLists[i]? = some args →
            predicateHolds isa E args varargin = false) := by
    constructor
    · intro varargin id
      rw [(runChain_overloadChain isa E varargin self.overloads functionNames.length).1 id]
      constructor
      · rintro ⟨i, a, r, hi, hid, hp, hbefore⟩
        refine ⟨i, a, (overloads_lookup self i a r hi).1, hid, hp, ?_⟩
        intro j earlier hj hlook
        obtain ⟨r', hr'⟩ := returnVal_exists self hwf j earlier hlook
        exact hbefore j earlier r' hj (overloads_of_lookup self j earlier r' hlook hr')
      · rintro ⟨i, a, hi, hid, hp, hbefore⟩
        obtain ⟨r, hr⟩ := returnVal_exists self hwf i a hi
        refine ⟨i, a, r, overloads_of_lookup self i a r hi hr, hid, hp, ?_⟩
        intro j a' r' hj hlook
        exact hbefore j a' hj (overloads_lookup self j a' r' hlook).1
    · intro varargin
      rw [(runChain_overloadChain isa E varargin self.overloads functionNames.length).2.1]
      constructor
      · intro h i a hi
        obtain ⟨r, hr⟩ := returnVal_exists self hwf i a hi
        exact h i a r (overloads_of_lookup self i a r hi hr)
      · intro h i a r hi
        exact h i a (overloads_lookup self i a r hi).1
  refine ⟨_, overloadChain E self.overloads functionNames.length,
    proxy_wrapper_fragments_eq E self proxyFile wrapperFile cppClassName matlabClassName
      wrapperName using_namespaces functionNames hwf, ?_, ?_⟩
  · rw [renderChain_overloadChain]
  · intro varargin
    have hfault :=
      (runChain_overloadChain isa E varargin self.overloads functionNames.length).2.2
    refine ⟨hfault, hcallAll varargin, hnoneAll varargin, ?_⟩
    intro i j first second hij hi hj hlen htags
    have hsame := predicateHolds_congr isa E first second varargin hlen htags
    constructor
    · intro hrun
      obtain ⟨j', a, ha, hid, hpa, hbefore⟩ := (hcallAll varargin _).mp hrun
      have hjj : j' = j := by omega
      subst hjj
      have hpi := hbefore i first hij hi
      rw [hj] at ha
      cases ha
      rw [hsame, hpa] at hpi
      cases hpi
    · intro hp
      have hpi : predicateHolds isa E first varargin = true := by rw [hsame, hp]
      cases hrun : runChain isa varargin
          (overloadChain E self.overloads functionNames.length) with
      | fault => exact absurd hrun hfault
      | noMatch =>
        have := (hnoneAll varargin).mp hrun i first hi
        rw [hpi] at this
        cases this
      | call id =>
        obtain ⟨h, a, ha, hid, hpa, hbefore⟩ := (hcallAll varargin id).mp hrun
        have hle : h ≤ i := by
          rcases Nat.lt_or_ge i h with hlt | hge
          · have := hbefore i first hlt hi
            rw [hpi] at this
            cases this
          · exact hge
        refine ⟨h, hle, by rw [hid], ?_⟩
        constructor
        · intro heq
          subst heq
          exact hbefore
        · intro hnone
          rcases Nat.lt_or_ge h i with hlt | hge
          · have := hnone h a hlt ha
            rw [hpa] at this
            cases this
          · omega

/-- C5 on the example method, in a host where a value is the name of its class. -/
theorem proxy_first_match_witness :
    exampleMethod.returnVals.length = exampleMethod.argLists.length ∧
    ∃ s chain,
      proxy_wrapper_fragments exampleCollaborators exampleMethod ⟨""⟩ ⟨""⟩ "Bar" "Bar"
        "wrapper" ["gtsam"] [] = some s ∧
      s.proxyFile.oss = (⟨""⟩ : FileWriter).oss ++ proxyHeader exampleMethod.name ++
        String.join (renderChain "wrapper" chain 0) ++
        errorBranch "Bar" exampleMethod.name ++ proxyFooter ∧
      ∀ varargin : List String,
        runChain exampleIsa varargin chain ≠ Outcome.fault ∧
        (∀ id, runChain exampleIsa varargin chain = Outcome.call id ↔
          ∃ (i : Nat) (args : ArgumentList), exampleMethod.argLists[i]? = some args ∧
            id = ([] : List String).length + i ∧
            predicateHolds exampleIsa exampleCollaborators args varargin = true ∧
            ∀ (j : Nat) (earlier : ArgumentList), j < i →
              exampleMethod.argLists[j]? = some earlier →
              predicateHolds exampleIsa exampleCollaborators earlier varargin = false) ∧
        (runChain exampleIsa varargin chain = Outcome.noMatch ↔
          ∀ (i : Nat) (args : ArgumentList), exampleMethod.argLists[i]? = some args →
            predicateHolds exampleIsa exampleCollaborators args varargin = false) ∧
        ∀ (i j : Nat) (first second : ArgumentList), i < j →
          exampleMethod.argLists[i]? = some first →
          exampleMethod.argLists[j]? = some second →
          first.length = second.length →
          first.map exampleCollaborators.matlabClass =
            second.map exampleCollaborators.matlabClass →
          runChain exampleIsa varargin chain ≠
            Outcome.call (([] : List String).length + j) ∧
          (predicateHolds exampleIsa exampleCollaborators second varargin = true →
            ∃ h, h ≤ i ∧
              runChain exampleIsa varargin chain =
                Outcome.call (([] : List String).length + h) ∧
              (h = i ↔ ∀ (g : Nat) (earlier : ArgumentList), g < i →
                exampleMethod.argLists[g]? = some earlier →
                predicateHolds exampleIsa exampleCollaborators earlier varargin = false)) :=
  ⟨by decide, proxy_first_match exampleIsa exampleCollaborators exampleMethod ⟨""⟩ ⟨""⟩
    "Bar" "Bar" "wrapper" ["gtsam"] [] (by decide)⟩

/-- C5 as stated fails on three overloads of the same signature `(double x)` emitted on
an empty table: overloads 1 and 2 have the same arity and tags and the predicate of
overload 2 holds on one `double`, yet the proxy calls id 0, not the id 1 of overload 1. -/
theorem shadowed_call_counterexample :
    ∃ s,
      proxy_wrapper_fragments exampleCollaborators tripleMethod ⟨""⟩ ⟨""⟩ "Bar" "Bar"
        "wrapper" [] [] = some s ∧
      s.proxyFile.oss =
        "    function varargout = Foo(varargin)\n" ++
        "      if length(varargin) == 1 && isa(varargin\x7b1\x7d,'double')\n" ++
        "        wrapper(0, varargin\x7b:\x7d);\n" ++
        "      elseif length(varargin) == 1 && isa(varargin\x7b1\x7d,'double')\n" ++
        "        wrapper(1, varargin\x7b:\x7d);\n" ++
        "      elseif length(varargin) == 1 && isa(varargin\x7b1\x7d,'double')\n" ++
        "        wrapper(2, varargin\x7b:\x7d);\n" ++
        "      else\n" ++
        "        error('Arguments do not match any overload of function Bar.Foo');\n" ++
        "      end\n" ++ "    end\n" ∧
      s.proxyFile.oss = proxyHeader "foo" ++
        String.join (renderChain "wrapper"
          (overloadChain exampleCollaborators tripleMethod.overloads 0) 0) ++
        errorBranch "Bar" "foo" ++ proxyFooter ∧
      tripleMethod.argLists[1]? = some [⟨"double", "x"⟩] ∧
      tripleMethod.argLists[2]? = some [⟨"double", "x"⟩] ∧
      predicateHolds exampleIsa exampleCollaborators [⟨"double", "x"⟩] ["double"] = true ∧
      runChain exampleIsa ["double"]
        (overloadChain exampleCollaborators tripleMethod.overloads 0) = Outcome.call 0 ∧
      runChain exampleIsa ["double"]
        (overloadChain exampleCollaborators tripleMethod.overloads 0) ≠ Outcome.call 1 := by
  exact ⟨_, rfl, rfl, rfl, by decide, by decide, by decide, by decide, by decide⟩

/-- C6 (as amended): after the k branches of the overloads the proxy text holds one
unconditional `else` branch whose only statement raises an error, the message naming the
class and the method name with its first character upper-cased; the branch is the same
text for every wrapper name, function table and list of overloads: it calls no wrapper. -/
theorem proxy_error_branch (E : Collaborators) (self : StaticMethod)
    (proxyFile wrapperFile : FileWriter)
    (cppClassName matlabClassName wrapperName : String) (using_namespaces : List String)
    (functionNames : List String)
    (hwf : self.returnVals.length = self.argLists.length) :
    ∃ s branches,
      proxy_wrapper_fragments E self proxyFile wrapperFile cppClassName matlabClassName
        wrapperName using_namespaces functionNames = some s ∧
      s.proxyFile.oss = proxyFile.oss ++ proxyHeader self.name ++ String.join branches ++
        ("      else\n" ++ "        error('Arguments do not match any overload of function " ++
          matlabClassName ++ "." ++ upperName self.name ++ "');\n") ++
        ("      end\n" ++ "    end\n") ∧
      branches.length = self.argLists.length ∧
      ∀ i args returnVal, self.argLists[i]? = some args →
        self.returnVals[i]? = some returnVal →
        branches[i]? = some (branchText E wrapperName i args returnVal
          (functionNames.length + i)) := by
  refine ⟨_, branchTexts E wrapperName self.overloads 0 functionNames.length,
    proxy_wrapper_fragments_eq E self proxyFile wrapperFile cppClassName matlabClassName
      wrapperName using_namespaces functionNames hwf, rfl, ?_, ?_⟩
  · rw [branchTexts_length, overloads_length self hwf]
  · intro i args returnVal ha hr
    exact branch_lookup E self wrapperName functionNames.length i args returnVal ha hr

/-- C6 on the example method. -/
theorem proxy_error_branch_witness :
    exampleMethod.returnVals.length = exampleMethod.argLists.length ∧
    ∃ s branches,
      proxy_wrapper_fragments exampleCollaborators exampleMethod ⟨""⟩ ⟨""⟩ "Bar" "Bar"
        "wrapper" ["gtsam"] [] = some s ∧
      s.proxyFile.oss = (⟨""⟩ : FileWriter).oss ++ proxyHeader exampleMethod.name ++
        String.join branches ++
        ("      else\n" ++ "        error('Arguments do not match any overload of function " ++
          "Bar" ++ "." ++ upperName exampleMethod.name ++ "');\n") ++
        ("      end\n" ++ "    end\n") ∧
      branches.length = exampleMethod.argLists.length ∧
      ∀ i args returnVal, exampleMethod.argLists[i]? = some args →
        exampleMethod.returnVals[i]? = some returnVal →
        branches[i]? = some (branchText exampleCollaborators "wrapper" i args returnVal
          (([] : List String).length + i)) :=
  ⟨by decide, proxy_error_branch exampleCollaborators exampleMethod ⟨""⟩ ⟨""⟩ "Bar" "Bar"
    "wrapper" ["gtsam"] [] (by decide)⟩

/-- C6 as stated fails for the method registered as `foo` on class `Bar`: the error
message names `Bar.Foo`, and the text `Bar.foo` occurs nowhere in the proxy. -/
theorem error_message_name_counterexample :
    plainMethod.name = "foo" ∧
    ∃ s,
      proxy_wrapper_fragments exampleCollaborators plainMethod ⟨""⟩ ⟨""⟩ "Bar" "Bar"
        "wrapper" [] [] = some s ∧
      s.proxyFile.oss =
        "    function varargout = Foo(varargin)\n" ++
        "      if length(varargin) == 0\n" ++
        "        wrapper(0, varargin\x7b:\x7d);\n" ++
        "      else\n" ++
        "        error('Arguments do not match any overload of function Bar.Foo');\n" ++
        "      end\n" ++ "    end\n" ∧
      ¬ ("Bar.foo".data <:+: s.proxyFile.oss.data) := by
  exact ⟨rfl, _, rfl, rfl, by decide⟩

/-- C7: the symbol name that `wrapper_fragment` returns is the class name, an underscore,
the method name, an underscore and the rendering of the id, which for an id n ≥ 0 is the
decimal rendering of n; names built from different ids differ, whatever the class and
method names; hence the names that a session appends to the function table are pairwise
distinct. -/
theorem symbol_names_unique (E : Collaborators) (wrapperName : String)
    (using_namespaces : List String) (es : List Emission) (s : Sinks)
    (hwf : ∀ e ∈ es, e.method.returnVals.length = e.method.argLists.length) :
    (∀ (self : StaticMethod) (file : FileWriter) (cppClassName matlabClassName : String)
        (overload : Nat) (id : Int) (args : ArgumentList) (returnVal : ReturnValue),
      self.argLists[overload]? = some args → self.returnVals[overload]? = some returnVal →
      (wrapper_fragment E self file cppClassName matlabClassName (Int.ofNat overload) id
        using_namespaces).map Prod.snd =
          some (matlabClassName ++ "_" ++ self.name ++ "_" ++ lexical_cast id)) ∧
    (∀ n : Nat, lexical_cast (Int.ofNat n) = decimal n) ∧
    (∀ (C C' M M' : String) (i j : Int), i ≠ j →
      C ++ "_" ++ M ++ "_" ++ lexical_cast i ≠ C' ++ "_" ++ M' ++ "_" ++ lexical_cast j) ∧
    ∃ s' appended,
      emitAll E wrapperName using_namespaces es s = some s' ∧
      s'.functionNames = s.functionNames ++ appended ∧
      appended.Nodup := by
  refine ⟨?_, fun _ => rfl, ?_, ?_⟩
  · intro self file cppClassName matlabClassName overload id args returnVal ha hr
    rw [wrapper_fragment_eq E self file cppClassName matlabClassName overload id
      using_namespaces args returnVal ha hr]
    rfl
  · intro C C' M M' i j hij heq
    exact hij (symbolName_injective C C' M M' i j heq)
  · obtain ⟨s', appended, hrun, htable, _, hidx⟩ :=
      emitAll_spec E wrapperName using_namespaces es s hwf
    exact ⟨s', appended, hrun, htable, nodup_of_indexed s.functionNames.length appended hidx⟩

/-- C7 on a session of two methods, started on a table of one entry. -/
theorem symbol_names_unique_witness :
    (∀ e ∈ exampleSession, e.method.returnVals.length = e.method.argLists.length) ∧
    ((∀ (self : StaticMethod) (file : FileWriter) (cppClassName matlabClassName : String)
        (overload : Nat) (id : Int) (args : ArgumentList) (returnVal : ReturnValue),
      self.argLists[overload]? = some args → self.returnVals[overload]? = some returnVal →
      (wrapper_fragment exampleCollaborators self file cppClassName matlabClassName
        (Int.ofNat overload) id ["gtsam"]).map Prod.snd =
          some (matlabClassName ++ "_" ++ self.name ++ "_" ++ lexical_cast id)) ∧
    (∀ n : Nat, lexical_cast (Int.ofNat n) = decimal n) ∧
    (∀ (C C' M M' : String) (i j : Int), i ≠ j →
      C ++ "_" ++ M ++ "_" ++ lexical_cast i ≠ C' ++ "_" ++ M' ++ "_" ++ lexical_cast j) ∧
    ∃ s' appended,
      emitAll exampleCollaborators "wrapper" ["gtsam"] exampleSession
        ⟨⟨""⟩, ⟨""⟩, ["Bar_new_0"]⟩ = some s' ∧
      s'.functionNames = (⟨⟨""⟩, ⟨""⟩, ["Bar_new_0"]⟩ : Sinks).functionNames ++ appended ∧
      appended.Nodup) :=
  ⟨by decide, symbol_names_unique exampleCollaborators "wrapper" ["gtsam"] exampleSession
    ⟨⟨""⟩, ⟨""⟩, ["Bar_new_0"]⟩ (by decide)⟩

/-- C8: emission appends to the function table and numbers across methods. For a table
of length n and a method with k overloads the table afterwards is the old table followed
by k new entries, and the call lines of the proxy carry the ids n, n+1, ..., n+k-1 in
branch order; a second method with k' overloads emitted on the result again only
appends, and its call lines carry n+k, ..., n+k+k'-1. -/
theorem function_table_append_only (E : Collaborators) (self next : StaticMethod)
    (proxyFile wrapperFile : FileWriter)
    (cppClassName matlabClassName nextCppClassName nextMatlabClassName wrapperName : String)
    (using_namespaces : List String) (functionNames : List String)
    (hwf : self.returnVals.length = self.argLists.length)
    (hnext : next.returnVals.length = next.argLists.length) :
    ∃ s branches appended,
      proxy_wrapper_fragments E self proxyFile wrapperFile cppClassName matlabClassName
        wrapperName using_namespaces functionNames = some s ∧
      s.functionNames = functionNames ++ appended ∧
      appended.length = self.argLists.length ∧
      s.functionNames.length = functionNames.length + self.argLists.length ∧
      s.proxyFile.oss = proxyFile.oss ++ proxyHeader self.name ++ String.join branches ++
        errorBranch matlabClassName self.name ++ proxyFooter ∧
      branches.length = self.argLists.length ∧
      (∀ i args returnVal, self.argLists[i]? = some args →
        self.returnVals[i]? = some returnVal →
        branches[i]? = some (guardLine E i args ++
          ("        " ++ outputBinding returnVal ++ wrapperName ++ "(" ++
            decimal (functionNames.length + i) ++ ", varargin\x7b:\x7d);\n"))) ∧
      ∃ s' branches' appended',
        proxy_wrapper_fragments E next s.proxyFile s.wrapperFile nextCppClassName
          nextMatlabClassName wrapperName using_namespaces s.functionNames = some s' ∧
        s'.functionNames = functionNames ++ appended ++ appended' ∧
        appended'.length = next.argLists.length ∧
        s'.functionNames.length =
          functionNames.length + self.argLists.length + next.argLists.length ∧
        s'.proxyFile.oss = s.proxyFile.oss ++ proxyHeader next.name ++
          String.join branches' ++ errorBranch nextMatlabClassName next.name ++
          proxyFooter ∧
        branches'.length = next.argLists.length ∧
        ∀ i args returnVal, next.argLists[i]? = some args →
          next.returnVals[i]? = some returnVal →
          branches'[i]? = some (guardLine E i args ++
            ("        " ++ outputBinding returnVal ++ wrapperName ++ "(" ++
              decimal (functionNames.length + self.argLists.length + i) ++
              ", varargin\x7b:\x7d);\n")) := by
  refine ⟨_, branchTexts E wrapperName self.overloads 0 functionNames.length,
    symbolNames matlabClassName self.name self.argLists.length functionNames.length,
    proxy_wrapper_fragments_eq E self proxyFile wrapperFile cppClassName matlabClassName
      wrapperName using_namespaces functionNames hwf, rfl, symbolNames_length _ _ _ _,
    by simp [symbolNames_length], rfl,
    by rw [branchTexts_length, overloads_length self hwf], ?_, ?_⟩
  · intro i args returnVal ha hr
    rw [branch_lookup E self wrapperName functionNames.length i args returnVal ha hr]
    simp only [branchText, callLine]
  · have hlen : (functionNames ++ symbolNames matlabClassName self.name
        self.argLists.length functionNames.length).length =
        functionNames.length + self.argLists.length := by
      simp only [List.length_append, symbolNames_length]
    refine ⟨_, branchTexts E wrapperName next.overloads 0
        (functionNames.length + self.argLists.length),
      symbolNames nextMatlabClassName next.name next.argLists.length
        (functionNames.length + self.argLists.length),
      proxy_wrapper_fragments_eq E next _ _ nextCppClassName nextMatlabClassName
        wrapperName using_namespaces _ hnext, ?_, symbolNames_length _ _ _ _, ?_, ?_,
      by rw [branchTexts_length, overloads_length next hnext], ?_⟩
    · simp only [hlen]
    · simp only [List.length_append, symbolNames_length]
    · simp only [hlen]
    · intro i args returnVal ha hr
      rw [branch_lookup E next wrapperName _ i args returnVal ha hr]
      simp only [branchText, callLine]

/-- C8 on the example method followed by the method of three equal overloads. -/
theorem function_table_append_only_witness :
    exampleMethod.returnVals.length = exampleMethod.argLists.length ∧
    tripleMethod.returnVals.length = tripleMethod.argLists.length ∧
    ∃ s branches appended,
      proxy_wrapper_fragments exampleCollaborators exampleMethod ⟨""⟩ ⟨""⟩ "Bar" "Bar"
        "wrapper" ["gtsam"] ["Bar_new_0"] = some s ∧
      s.functionNames = ["Bar_new_0"] ++ appended ∧
      appended.length = exampleMethod.argLists.length ∧
      s.functionNames.length = ["Bar_new_0"].length + exampleMethod.argLists.length ∧
      s.proxyFile.oss = (⟨""⟩ : FileWriter).oss ++ proxyHeader exampleMethod.name ++
        String.join branches ++ errorBranch "Bar" exampleMethod.name ++ proxyFooter ∧
      branches.length = exampleMethod.argLists.length ∧
      (∀ i args returnVal, exampleMethod.argLists[i]? = some args →
        exampleMethod.returnVals[i]? = some returnVal →
        branches[i]? = some (guardLine exampleCollaborators i args ++
          ("        " ++ outputBinding returnVal ++ "wrapper" ++ "(" ++
            decimal (["Bar_new_0"].length + i) ++ ", varargin\x7b:\x7d);\n"))) ∧
      ∃ s' branches' appended',
        proxy_wrapper_fragments exampleCollaborators tripleMethod s.proxyFile s.wrapperFile
          "geometry::Baz" "geometryBaz" "wrapper" ["gtsam"] s.functionNames = some s' ∧
        s'.functionNames = ["Bar_new_0"] ++ appended ++ appended' ∧
        appended'.length = tripleMethod.argLists.length ∧
        s'.functionNames.length =
          ["Bar_new_0"].length + exampleMethod.argLists.length +
            tripleMethod.argLists.length ∧
        s'.proxyFile.oss = s.proxyFile.oss ++ proxyHeader tripleMethod.name ++
          String.join branches' ++ errorBranch "geometryBaz" tripleMethod.name ++
          proxyFooter ∧
        branches'.length = tripleMethod.argLists.length ∧
        ∀ i args returnVal, tripleMethod.argLists[i]? = some args →
          tripleMethod.returnVals[i]? = some returnVal →
          branches'[i]? = some (guardLine exampleCollaborators i args ++
            ("        " ++ outputBinding returnVal ++ "wrapper" ++ "(" ++
              decimal (["Bar_new_0"].length + exampleMethod.argLists.length + i) ++
              ", varargin\x7b:\x7d);\n")) :=
  ⟨by decide, by decide, function_table_append_only exampleCollaborators exampleMethod
    tripleMethod ⟨""⟩ ⟨""⟩ "Bar" "Bar" "geometry::Baz" "geometryBaz" "wrapper" ["gtsam"]
    ["Bar_new_0"] (by decide) (by decide)⟩

/-- C9: `addOverload` is total and only appends: afterwards the argument lists and the
return values are the previous ones followed by the new overload, also when an equal
overload is already there; a sequence of calls appends its overloads in call order, so
that after m calls on a fresh method the two vectors hold exactly the m overloads in call
order, and emission writes their branches in that order. -/
theorem addOverload_appends (E : Collaborators) (self : StaticMethod) (verbose : Bool)
    (name : String) (args : ArgumentList) (retVal : ReturnValue)
    (calls : List Registration) (proxyFile wrapperFile : FileWriter)
    (cppClassName matlabClassName wrapperName : String) (using_namespaces : List String)
    (functionNames : List String) :
    (self.addOverload verbose name args retVal).argLists = self.argLists ++ [args] ∧
    (self.addOverload verbose name args retVal).returnVals =
      self.returnVals ++ [retVal] ∧
    ((self.addOverload verbose name args retVal).addOverload verbose name args
      retVal).argLists = self.argLists ++ [args, args] ∧
    ((self.addOverload verbose name args retVal).addOverload verbose name args
      retVal).returnVals = self.returnVals ++ [retVal, retVal] ∧
    (registerAll self calls).argLists = self.argLists ++ calls.map Registration.args ∧
    (registerAll self calls).returnVals =
      self.returnVals ++ calls.map Registration.retVal ∧
    (registerAll (StaticMethod.empty verbose) calls).argLists =
      calls.map Registration.args ∧
    (registerAll (StaticMethod.empty verbose) calls).returnVals =
      calls.map Registration.retVal ∧
    (registerAll (StaticMethod.empty verbose) calls).argLists.length = calls.length ∧
    (registerAll (StaticMethod.empty verbose) calls).returnVals.length = calls.length ∧
    ∃ s branches,
      proxy_wrapper_fragments E (registerAll (StaticMethod.empty verbose) calls) proxyFile
        wrapperFile cppClassName matlabClassName wrapperName using_namespaces
        functionNames = some s ∧
      s.proxyFile.oss = proxyFile.oss ++
        proxyHeader (registerAll (StaticMethod.empty verbose) calls).name ++
        String.join branches ++
        errorBranch matlabClassName (registerAll (StaticMethod.empty verbose) calls).name ++
        proxyFooter ∧
      branches.length = calls.length ∧
      ∀ (i : Nat) (c : Registration), calls[i]? = some c →
        branches[i]? = some (branchText E wrapperName i c.args c.retVal
          (functionNames.length + i)) := by
  have hargs : (registerAll (StaticMethod.empty verbose) calls).argLists =
      calls.map Registration.args := by
    rw [registerAll_argLists]
    rfl
  have hrets : (registerAll (StaticMethod.empty verbose) calls).returnVals =
      calls.map Registration.retVal := by
    rw [registerAll_returnVals]
    rfl
  have hwf : (registerAll (StaticMethod.empty verbose) calls).returnVals.length =
      (registerAll (StaticMethod.empty verbose) calls).argLists.length := by
    rw [hargs, hrets, List.length_map, List.length_map]
  refine ⟨rfl, rfl, by simp [addOverload], by simp [addOverload],
    registerAll_argLists calls self, registerAll_returnVals calls self, hargs, hrets,
    by rw [hargs, List.length_map], by rw [hrets, List.length_map],
    _, branchTexts E wrapperName (registerAll (StaticMethod.empty verbose) calls).overloads
      0 functionNames.length,
    proxy_wrapper_fragments_eq E _ proxyFile wrapperFile cppClassName matlabClassName
      wrapperName using_namespaces functionNames hwf, rfl, ?_, ?_⟩
  · rw [branchTexts_length, overloads_length _ hwf, hargs, List.length_map]
  · intro i c hc
    exact branch_lookup E _ wrapperName functionNames.length i c.args c.retVal
      (by rw [hargs, List.getElem?_map, hc]; rfl)
      (by rw [hrets, List.getElem?_map, hc]; rfl)

/-- C10: emission reads the function table only through its length: on two tables of the
same length the proxy text and the wrapper text come out identical, and the same names
are appended to either table. -/
theorem emission_depends_on_table_length (E : Collaborators) (self : StaticMethod)
    (proxyFile wrapperFile : FileWriter)
    (cppClassName matlabClassName wrapperName : String) (using_namespaces : List String)
    (functionNames otherNames : List String)
    (hwf : self.returnVals.length = self.argLists.length)
    (hlen : functionNames.length = otherNames.length) :
    ∃ s s' appended,
      proxy_wrapper_fragments E self proxyFile wrapperFile cppClassName matlabClassName
        wrapperName using_namespaces functionNames = some s ∧
      proxy_wrapper_fragments E self proxyFile wrapperFile cppClassName matlabClassName
        wrapperName using_namespaces otherNames = some s' ∧
      s.proxyFile.oss = s'.proxyFile.oss ∧
      s.wrapperFile.oss = s'.wrapperFile.oss ∧
      s.functionNames = functionNames ++ appended ∧
      s'.functionNames = otherNames ++ appended := by
  refine ⟨_, _, symbolNames matlabClassName self.name self.argLists.length
      functionNames.length,
    proxy_wrapper_fragments_eq E self proxyFile wrapperFile cppClassName matlabClassName
      wrapperName using_namespaces functionNames hwf,
    proxy_wrapper_fragments_eq E self proxyFile wrapperFile cppClassName matlabClassName
      wrapperName using_namespaces otherNames hwf, ?_, ?_, rfl, ?_⟩
  · simp only [hlen]
  · simp only [hlen]
  · simp only [hlen]

/-- C10 on the example method and two tables of two entries each. -/
theorem emission_depends_on_table_length_witness :
    exampleMethod.returnVals.length = exampleMethod.argLists.length ∧
    ["Bar_new_0", "Bar_new_1"].length = ["x", "y"].length ∧
    ∃ s s' appended,
      proxy_wrapper_fragments exampleCollaborators exampleMethod ⟨""⟩ ⟨""⟩ "Bar" "Bar"
        "wrapper" ["gtsam"] ["Bar_new_0", "Bar_new_1"] = some s ∧
      proxy_wrapper_fragments exampleCollaborators exampleMethod ⟨""⟩ ⟨""⟩ "Bar" "Bar"
        "wrapper" ["gtsam"] ["x", "y"] = some s' ∧
      s.proxyFile.oss = s'.proxyFile.oss ∧
      s.wrapperFile.oss = s'.wrapperFile.oss ∧
      s.functionNames = ["Bar_new_0", "Bar_new_1"] ++ appended ∧
      s'.functionNames = ["x", "y"] ++ appended :=
  ⟨by decide, by decide, emission_depends_on_table_length exampleCollaborators exampleMethod
    ⟨""⟩ ⟨""⟩ "Bar" "Bar" "wrapper" ["gtsam"] ["Bar_new_0", "Bar_new_1"] ["x", "y"]
    (by decide) (by decide)⟩

/-- C11: the scenario of method `Foo` on class `Bar` with the overloads `()` returning
nothing and `(double x)` returning one object of class `Point`, emitted on empty files and
an empty function table. The proxy is `if length(varargin) == 0` calling id 0 without
output binding, `elseif length(varargin) == 1 && isa(varargin{1},'tag')` calling id 1
bound to `varargout{1}`, and the error branch naming `Bar.Foo`; the table becomes
`Bar_Foo_0`, `Bar_Foo_1`; the native entry of the second overload holds the alias
`typedef boost::shared_ptr<...> SharedPoint;` and that of the first holds no result
alias. -/
theorem scenario_foo_on_bar (E : Collaborators) (cppClassName wrapperName : String)
    (using_namespaces : List String) :
    proxy_wrapper_fragments E scenarioMethod ⟨""⟩ ⟨""⟩ cppClassName "Bar" wrapperName
        using_namespaces [] =
      some ⟨⟨"    function varargout = Foo(varargin)\n" ++
          "      if length(varargin) == 0\n" ++
          "        " ++ wrapperName ++ "(0, varargin\x7b:\x7d);\n" ++
          "      elseif length(varargin) == 1 && isa(varargin\x7b1\x7d,'" ++
            E.matlabClass ⟨"double", "x"⟩ ++ "')\n" ++
          "        varargout\x7b1\x7d = " ++ wrapperName ++ "(1, varargin\x7b:\x7d);\n" ++
          "      else\n" ++
          "        error('Arguments do not match any overload of function Bar.Foo');\n" ++
          "      end\n" ++ "    end\n"⟩,
        ⟨"void Bar_Foo_0(int nargout, mxArray *out[], int nargin, const mxArray *in[])\n" ++
          "\x7b\n" ++ E.generateUsingNamespace using_namespaces ++
          "  typedef boost::shared_ptr<" ++ cppClassName ++ "> Shared;\n" ++
          "  checkArguments(\x22Bar.Foo\x22,nargout,nargin,0);\n" ++
          E.matlab_unwrap [] 0 ++ "  " ++ cppClassName ++ "::Foo(" ++ E.names [] ++ ");\n" ++
          E.wrap_result voidReturn ++ "\x7d\n" ++
          "void Bar_Foo_1(int nargout, mxArray *out[], int nargin, const mxArray *in[])\n" ++
          "\x7b\n" ++ E.generateUsingNamespace using_namespaces ++
          "  typedef boost::shared_ptr<" ++ E.qualifiedType1 pointReturn "::" ++
            "> SharedPoint;\n" ++
          "  typedef boost::shared_ptr<" ++ cppClassName ++ "> Shared;\n" ++
          "  checkArguments(\x22Bar.Foo\x22,nargout,nargin,1);\n" ++
          E.matlab_unwrap [⟨"double", "x"⟩] 0 ++ "  " ++
          E.return_type pointReturn true pairing.pair ++ " result = " ++
          cppClassName ++ "::Foo(" ++ E.names [⟨"double", "x"⟩] ++ ");\n" ++
          E.wrap_result pointReturn ++ "\x7d\n"⟩,
        ["Bar_Foo_0", "Bar_Foo_1"]⟩ := by
  rw [proxy_wrapper_fragments_eq E scenarioMethod ⟨""⟩ ⟨""⟩ cppClassName "Bar" wrapperName
    using_namespaces [] rfl]
  have hover : scenarioMethod.overloads =
      [([], voidReturn), ([⟨"double", "x"⟩], pointReturn)] := rfl
  have hname : scenarioMethod.name = "Foo" := rfl
  have hlen : scenarioMethod.argLists.length = 2 := rfl
  have hupper : upperName "Foo" = "Foo" := rfl
  have hvoid : ("void" = "void") = True := eq_self _
  have hzero : Nat.repr 0 = "0" := rfl
  have hone : Nat.repr 1 = "1" := rfl
  have hpoint : ("Point" = "void") = False := eq_false (by decide)
  have hcat : (return_category.VOID = return_category.CLASS) = False := eq_false (by decide)
  have hcat' : (return_category.CLASS = return_category.VOID) = False := eq_false (by decide)
  simp only [hover, hname, hlen, hupper, branchTexts, nativeEntries, symbolNames, join_cons,
    join_nil, branchText, guardLine, predicateText, callLine, outputBinding, nativeEntry,
    resultAliases, sharedAlias, symbolName, proxyHeader, errorBranch, proxyFooter,
    isaChecks, isaCheck, intercalate_cons, List.map_nil, voidReturn, pointReturn,
    List.length_nil, List.length_cons, Nat.lt_irrefl, Nat.zero_lt_succ, if_true, if_false,
    Bool.false_eq_true, false_and, hvoid, hpoint, hcat, hcat', ne_eq, not_true_eq_false,
    not_false_eq_true, decimal, lexical_cast, hzero, hone, List.nil_append, Nat.zero_add, Nat.reduceAdd,
    one_ne_zero, Sinks.mk.injEq, FileWriter.mk.injEq, Option.some.injEq, String.ext_iff,
    String.data_append, List.append_assoc, List.cons_append, List.singleton_append]
  exact ⟨trivial, trivial, rfl⟩

/-- C14: `wrapper_fragment` emits the alias `typedef boost::shared_ptr<qualifiedTypeN>
Shared<typeN>;` of result slot N exactly when that slot is of category CLASS: for slot 1
iff category1 is CLASS, with or without pair, hence never for a VOID return; for slot 2
iff the return value is a pair and category2 is CLASS. The aliases stand after the
namespaces and before the alias of the class and the `checkArguments` assertion. -/
theorem result_aliases_by_category (E : Collaborators) (self : StaticMethod)
    (file : FileWriter) (cppClassName matlabClassName : String) (overload : Nat) (id : Int)
    (using_namespaces : List String) (args : ArgumentList) (returnVal : ReturnValue)
    (ha : self.argLists[overload]? = some args)
    (hr : self.returnVals[overload]? = some returnVal) :
    ∃ alias1 alias2 : String,
      wrapper_fragment E self file cppClassName matlabClassName (Int.ofNat overload) id
          using_namespaces =
        some (⟨file.oss ++
          (entryOpening E matlabClassName self.name using_namespaces id ++
            (alias1 ++ alias2) ++
            ("  typedef boost::shared_ptr<" ++ cppClassName ++ "> Shared;\n" ++
              "  checkArguments(\x22" ++ matlabClassName ++ "." ++ self.name ++
              "\x22,nargout,nargin," ++ decimal args.length ++ ");\n" ++
              E.matlab_unwrap args 0) ++
            ("  " ++ (if returnVal.type1 = "void" then ""
                else E.return_type returnVal true pairing.pair ++ " result = ") ++
              cppClassName ++ "::" ++ self.name ++ "(" ++ E.names args ++ ");\n") ++
            E.wrap_result returnVal ++ "\x7d\n")⟩,
          symbolName matlabClassName self.name id) ∧
      (returnVal.category1 = return_category.CLASS →
        alias1 = "  typedef boost::shared_ptr<" ++ E.qualifiedType1 returnVal "::" ++
          "> Shared" ++ returnVal.type1 ++ ";\n") ∧
      (returnVal.category1 ≠ return_category.CLASS → alias1 = "") ∧
      (returnVal.isPair = false → returnVal.category1 = return_category.VOID →
        alias1 = "" ∧ alias2 = "") ∧
      (returnVal.isPair = true → returnVal.category2 = return_category.CLASS →
        alias2 = "  typedef boost::shared_ptr<" ++ E.qualifiedType2 returnVal "::" ++
          "> Shared" ++ returnVal.type2 ++ ";\n") ∧
      (returnVal.isPair = true → returnVal.category2 ≠ return_category.CLASS →
        alias2 = "") ∧
      (returnVal.isPair = false → alias2 = "") := by
  refine ⟨if returnVal.category1 = return_category.CLASS
      then sharedAlias (E.qualifiedType1 returnVal "::") returnVal.type1 else "",
    if returnVal.isPair = true ∧ returnVal.category2 = return_category.CLASS
      then sharedAlias (E.qualifiedType2 returnVal "::") returnVal.type2 else "",
    ?_, ?_, ?_, ?_, ?_, ?_, ?_⟩
  · rw [wrapper_fragment_eq E self file cppClassName matlabClassName overload id
      using_namespaces args returnVal ha hr, nativeEntry_split]
    simp only [resultAliases, entryChecks]
  · intro h1
    simp only [h1, if_true, sharedAlias]
  · intro h1
    simp only [h1, if_false]
  · intro hp hv
    simp only [hp, hv, Bool.false_eq_true, false_and, if_false, and_true]
    rfl
  · intro hp h2
    simp only [hp, h2, and_self, if_true, sharedAlias]
  · intro hp h2
    simp only [h2, and_false, if_false]
  · intro hp
    simp only [hp, Bool.false_eq_true, false_and, if_false]

/-- C14 on the third overload of the example method, which returns a pair of a number
and a `Point`. -/
theorem result_aliases_by_category_witness :
    exampleMethod.argLists[2]? = some [⟨"string", "s"⟩, ⟨"double", "y"⟩] ∧
    exampleMethod.returnVals[2]? = some pairReturn ∧
    ∃ alias1 alias2 : String,
      wrapper_fragment exampleCollaborators exampleMethod ⟨""⟩ "Bar" "Bar" (Int.ofNat 2) 7
          ["gtsam"] =
        some (⟨(⟨""⟩ : FileWriter).oss ++
          (entryOpening exampleCollaborators "Bar" exampleMethod.name ["gtsam"] 7 ++
            (alias1 ++ alias2) ++
            ("  typedef boost::shared_ptr<" ++ "Bar" ++ "> Shared;\n" ++
              "  checkArguments(\x22" ++ "Bar" ++ "." ++ exampleMethod.name ++
              "\x22,nargout,nargin," ++
              decimal ([⟨"string", "s"⟩, ⟨"double", "y"⟩] : ArgumentList).length ++ ");\n" ++
              exampleCollaborators.matlab_unwrap [⟨"string", "s"⟩, ⟨"double", "y"⟩] 0) ++
            ("  " ++ (if pairReturn.type1 = "void" then ""
                else exampleCollaborators.return_type pairReturn true pairing.pair ++
                  " result = ") ++
              "Bar" ++ "::" ++ exampleMethod.name ++ "(" ++
              exampleCollaborators.names [⟨"string", "s"⟩, ⟨"double", "y"⟩] ++ ");\n") ++
            exampleCollaborators.wrap_result pairReturn ++ "\x7d\n")⟩,
          symbolName "Bar" exampleMethod.name 7) ∧
      (pairReturn.category1 = return_category.CLASS →
        alias1 = "  typedef boost::shared_ptr<" ++
          exampleCollaborators.qualifiedType1 pairReturn "::" ++
          "> Shared" ++ pairReturn.type1 ++ ";\n") ∧
      (pairReturn.category1 ≠ return_category.CLASS → alias1 = "") ∧
      (pairReturn.isPair = false → pairReturn.category1 = return_category.VOID →
        alias1 = "" ∧ alias2 = "") ∧
      (pairReturn.isPair = true → pairReturn.category2 = return_category.CLASS →
        alias2 = "  typedef boost::shared_ptr<" ++
          exampleCollaborators.qualifiedType2 pairReturn "::" ++
          "> Shared" ++ pairReturn.type2 ++ ";\n") ∧
      (pairReturn.isPair = true → pairReturn.category2 ≠ return_category.CLASS →
        alias2 = "") ∧
      (pairReturn.isPair = false → alias2 = "") :=
  ⟨by decide, by decide, result_aliases_by_category exampleCollaborators exampleMethod ⟨""⟩
    "Bar" "Bar" 2 7 ["gtsam"] [⟨"string", "s"⟩, ⟨"double", "y"⟩] pairReturn (by decide)
    (by decide)⟩

/-- C15: for the overload at position i with argument list `args`, the branch of the
proxy tests `length(varargin) == a` and the native entry asserts
`checkArguments("C.M",nargout,nargin,a)` with the same number a, the size of `args`; the
quoted name is the class name, a dot and the method name as registered; and the
arguments are unwrapped from boundary input 0 on. -/
theorem arity_checks_agree (E : Collaborators) (self : StaticMethod)
    (proxyFile wrapperFile : FileWriter)
    (cppClassName matlabClassName wrapperName : String) (using_namespaces : List String)
    (functionNames : List String)
    (hwf : self.returnVals.length = self.argLists.length) :
    ∃ s branches entries,
      proxy_wrapper_fragments E self proxyFile wrapperFile cppClassName matlabClassName
        wrapperName using_namespaces functionNames = some s ∧
      s.proxyFile.oss = proxyFile.oss ++ proxyHeader self.name ++ String.join branches ++
        errorBranch matlabClassName self.name ++ proxyFooter ∧
      s.wrapperFile.oss = wrapperFile.oss ++ String.join entries ∧
      branches.length = self.argLists.length ∧
      entries.length = self.argLists.length ∧
      ∀ i args returnVal, self.argLists[i]? = some args →
        self.returnVals[i]? = some returnVal →
        branches[i]? = some ("      " ++ (if i = 0 then "if " else "elseif ") ++
          ("length(varargin) == " ++ decimal args.length ++
            (if 0 < args.length then " && " ++ " && ".intercalate (isaChecks E args 1)
              else "")) ++
          "\n" ++ callLine wrapperName returnVal (functionNames.length + i)) ∧
        entries[i]? = some (
          entryOpening E matlabClassName self.name using_namespaces
            (Int.ofNat (functionNames.length + i)) ++
          resultAliases E returnVal ++
          ("  typedef boost::shared_ptr<" ++ cppClassName ++ "> Shared;\n" ++
            "  checkArguments(\x22" ++ (matlabClassName ++ "." ++ self.name) ++
            "\x22,nargout,nargin," ++ decimal args.length ++ ");\n" ++
            E.matlab_unwrap args 0) ++
          ("  " ++ (if returnVal.type1 = "void" then ""
              else E.return_type returnVal true pairing.pair ++ " result = ") ++
            cppClassName ++ "::" ++ self.name ++ "(" ++ E.names args ++ ");\n") ++
          E.wrap_result returnVal ++ "\x7d\n") := by
  refine ⟨_, branchTexts E wrapperName self.overloads 0 functionNames.length,
    nativeEntries E cppClassName matlabClassName self.name using_namespaces self.overloads
      functionNames.length,
    proxy_wrapper_fragments_eq E self proxyFile wrapperFile cppClassName matlabClassName
      wrapperName using_namespaces functionNames hwf, rfl, rfl,
    by rw [branchTexts_length, overloads_length self hwf],
    entries_length E self cppClassName matlabClassName using_namespaces _ hwf, ?_⟩
  intro i args returnVal ha hr
  constructor
  · rw [branch_lookup E self wrapperName functionNames.length i args returnVal ha hr]
    simp only [branchText, guardLine, predicateText, String.append_assoc]
  · rw [entry_lookup E self cppClassName matlabClassName using_namespaces _ i args
      returnVal ha hr, nativeEntry_split]
    simp only [entryChecks, String.append_assoc]

/-- C15 on the example method. -/
theorem arity_checks_agree_witness :
    exampleMethod.returnVals.length = exampleMethod.argLists.length ∧
    ∃ s branches entries,
      proxy_wrapper_fragments exampleCollaborators exampleMethod ⟨""⟩ ⟨""⟩ "Bar" "Bar"
        "wrapper" ["gtsam"] [] = some s ∧
      s.proxyFile.oss = (⟨""⟩ : FileWriter).oss ++ proxyHeader exampleMethod.name ++
        String.join branches ++ errorBranch "Bar" exampleMethod.name ++ proxyFooter ∧
      s.wrapperFile.oss = (⟨""⟩ : FileWriter).oss ++ String.join entries ∧
      branches.length = exampleMethod.argLists.length ∧
      entries.length = exampleMethod.argLists.length ∧
      ∀ i args returnVal, exampleMethod.argLists[i]? = some args →
        exampleMethod.returnVals[i]? = some returnVal →
        branches[i]? = some ("      " ++ (if i = 0 then "if " else "elseif ") ++
          ("length(varargin) == " ++ decimal args.length ++
            (if 0 < args.length
              then " && " ++ " && ".intercalate (isaChecks exampleCollaborators args 1)
              else "")) ++
          "\n" ++ callLine "wrapper" returnVal (([] : List String).length + i)) ∧
        entries[i]? = some (
          entryOpening exampleCollaborators "Bar" exampleMethod.name ["gtsam"]
            (Int.ofNat (([] : List String).length + i)) ++
          resultAliases exampleCollaborators returnVal ++
          ("  typedef boost::shared_ptr<" ++ "Bar" ++ "> Shared;\n" ++
            "  checkArguments(\x22" ++ ("Bar" ++ "." ++ exampleMethod.name) ++
            "\x22,nargout,nargin," ++ decimal args.length ++ ");\n" ++
            exampleCollaborators.matlab_unwrap args 0) ++
          ("  " ++ (if returnVal.type1 = "void" then ""
              else exampleCollaborators.return_type returnVal true pairing.pair ++
                " result = ") ++
            "Bar" ++ "::" ++ exampleMethod.name ++ "(" ++ exampleCollaborators.names args ++
            ");\n") ++
          exampleCollaborators.wrap_result returnVal ++ "\x7d\n") :=
  ⟨by decide, arity_checks_agree exampleCollaborators exampleMethod ⟨""⟩ ⟨""⟩ "Bar" "Bar"
    "wrapper" ["gtsam"] [] (by decide)⟩

/-- C16: `addOverload` keeps the two vectors of a method equally long, so they are
equally long in every state reached from an empty method by `addOverload` calls; in such
a state every overload index below `argLists.size()` finds its return value, both in
`wrapper_fragment` and in `proxy_wrapper_fragments`, which therefore return a result. -/
theorem registry_vectors_equal_length (E : Collaborators) (verbose : Bool)
    (calls : List Registration) (proxyFile wrapperFile file : FileWriter)
    (cppClassName matlabClassName wrapperName : String) (using_namespaces : List String)
    (functionNames : List String) (id : Int) :
    (∀ (self : StaticMethod) (v : Bool) (name : String) (args : ArgumentList)
        (retVal : ReturnValue), self.returnVals.length = self.argLists.length →
      (self.addOverload v name args retVal).returnVals.length =
        (self.addOverload v name args retVal).argLists.length) ∧
    (StaticMethod.empty verbose).returnVals.length =
      (StaticMethod.empty verbose).argLists.length ∧
    (registerAll (StaticMethod.empty verbose) calls).returnVals.length =
      (registerAll (StaticMethod.empty verbose) calls).argLists.length ∧
    (∀ i, i < (registerAll (StaticMethod.empty verbose) calls).argLists.length →
      ∃ args returnVal out,
        (registerAll (StaticMethod.empty verbose) calls).argLists[i]? = some args ∧
        (registerAll (StaticMethod.empty verbose) calls).returnVals[i]? = some returnVal ∧
        wrapper_fragment E (registerAll (StaticMethod.empty verbose) calls) file
          cppClassName matlabClassName (Int.ofNat i) id using_namespaces = some out) ∧
    ∃ s,
      proxy_wrapper_fragments E (registerAll (StaticMethod.empty verbose) calls) proxyFile
        wrapperFile cppClassName matlabClassName wrapperName using_namespaces
        functionNames = some s := by
  have hwf : (registerAll (StaticMethod.empty verbose) calls).returnVals.length =
      (registerAll (StaticMethod.empty verbose) calls).argLists.length := by
    rw [registerAll_argLists, registerAll_returnVals]
    simp [StaticMethod.empty]
  refine ⟨?_, rfl, hwf, ?_, _, proxy_wrapper_fragments_eq E _ proxyFile wrapperFile
    cppClassName matlabClassName wrapperName using_namespaces functionNames hwf⟩
  · intro self v name args retVal h
    simp [addOverload, h]
  · intro i hi
    have hi' : i < (registerAll (StaticMethod.empty verbose) calls).returnVals.length := by
      rw [hwf]
      exact hi
    exact ⟨_, _, _, List.getElem?_eq_getElem hi, List.getElem?_eq_getElem hi',
      wrapper_fragment_eq E _ file cppClassName matlabClassName i id using_namespaces _ _
        (List.getElem?_eq_getElem hi) (List.getElem?_eq_getElem hi')⟩

/-- C17: a method holds one name, which every `addOverload` overwrites while the
overloads accumulate: after a call with name N1 and a call with name N2 the name is N2
and both overloads are there, behind the earlier ones. Emission then writes one proxy
function, named after N2, that holds the branches of all the overloads in order, the two
new ones last; every native entry is built from N2, and so is every symbol name appended
to the function table. -/
theorem addOverload_overwrites_name (E : Collaborators) (self : StaticMethod)
    (v₁ v₂ : Bool) (N₁ N₂ : String) (args₁ args₂ : ArgumentList)
    (retVal₁ retVal₂ : ReturnValue) (proxyFile wrapperFile : FileWriter)
    (cppClassName matlabClassName wrapperName : String) (using_namespaces : List String)
    (functionNames : List String)
    (hwf : self.returnVals.length = self.argLists.length) :
    ((self.addOverload v₁ N₁ args₁ retVal₁).addOverload v₂ N₂ args₂ retVal₂).name = N₂ ∧
    ((self.addOverload v₁ N₁ args₁ retVal₁).addOverload v₂ N₂ args₂ retVal₂).argLists =
      self.argLists ++ [args₁, args₂] ∧
    ((self.addOverload v₁ N₁ args₁ retVal₁).addOverload v₂ N₂ args₂ retVal₂).returnVals =
      self.returnVals ++ [retVal₁, retVal₂] ∧
    ∃ s branches entries,
      proxy_wrapper_fragments E
        ((self.addOverload v₁ N₁ args₁ retVal₁).addOverload v₂ N₂ args₂ retVal₂)
        proxyFile wrapperFile cppClassName matlabClassName wrapperName using_namespaces
        functionNames = some s ∧
      s.proxyFile.oss = proxyFile.oss ++
        ("    function varargout = " ++ upperName N₂ ++ "(varargin)\n") ++
        String.join branches ++
        ("      else\n" ++ "        error('Arguments do not match any overload of function " ++
          matlabClassName ++ "." ++ upperName N₂ ++ "');\n") ++
        ("      end\n" ++ "    end\n") ∧
      s.wrapperFile.oss = wrapperFile.oss ++ String.join entries ∧
      branches.length = self.argLists.length + 2 ∧
      entries.length = self.argLists.length + 2 ∧
      s.functionNames.length = functionNames.length + (self.argLists.length + 2) ∧
      (∀ i, i < self.argLists.length + 2 →
        s.functionNames[functionNames.length + i]? =
          some (matlabClassName ++ "_" ++ N₂ ++ "_" ++
            decimal (functionNames.length + i))) ∧
      (∀ i args returnVal, self.argLists[i]? = some args →
        self.returnVals[i]? = some returnVal →
        branches[i]? = some (branchText E wrapperName i args returnVal
          (functionNames.length + i)) ∧
        entries[i]? = some (nativeEntry E cppClassName matlabClassName N₂ using_namespaces
          args returnVal (Int.ofNat (functionNames.length + i)))) ∧
      branches[self.argLists.length]? = some (branchText E wrapperName
        self.argLists.length args₁ retVal₁ (functionNames.length + self.argLists.length)) ∧
      entries[self.argLists.length]? = some (nativeEntry E cppClassName matlabClassName N₂
        using_namespaces args₁ retVal₁
        (Int.ofNat (functionNames.length + self.argLists.length))) ∧
      branches[self.argLists.length + 1]? = some (branchText E wrapperName
        (self.argLists.length + 1) args₂ retVal₂
        (functionNames.length + (self.argLists.length + 1))) ∧
      entries[self.argLists.length + 1]? = some (nativeEntry E cppClassName
        matlabClassName N₂ using_namespaces args₂ retVal₂
        (Int.ofNat (functionNames.length + (self.argLists.length + 1)))) := by
  have hwf' : ((self.addOverload v₁ N₁ args₁ retVal₁).addOverload v₂ N₂ args₂
      retVal₂).returnVals.length =
      ((self.addOverload v₁ N₁ args₁ retVal₁).addOverload v₂ N₂ args₂
        retVal₂).argLists.length := by
    simp [addOverload, hwf]
  have hlen : ((self.addOverload v₁ N₁ args₁ retVal₁).addOverload v₂ N₂ args₂
      retVal₂).argLists.length = self.argLists.length + 2 := by
    simp [addOverload]
  have hargs : ((self.addOverload v₁ N₁ args₁ retVal₁).addOverload v₂ N₂ args₂
      retVal₂).argLists = self.argLists ++ [args₁, args₂] := by
    simp [addOverload]
  have hrets : ((self.addOverload v₁ N₁ args₁ retVal₁).addOverload v₂ N₂ args₂
      retVal₂).returnVals = self.returnVals ++ [retVal₁, retVal₂] := by
    simp [addOverload]
  have hold : ∀ (i : Nat) (args : ArgumentList) (returnVal : ReturnValue),
      self.argLists[i]? = some args →
      self.returnVals[i]? = some returnVal →
      ((self.addOverload v₁ N₁ args₁ retVal₁).addOverload v₂ N₂ args₂
        retVal₂).argLists[i]? = some args ∧
      ((self.addOverload v₁ N₁ args₁ retVal₁).addOverload v₂ N₂ args₂
        retVal₂).returnVals[i]? = some returnVal := by
    intro i args returnVal ha hr
    rw [hargs, hrets, List.getElem?_append_left (lookup_lt _ i args ha),
      List.getElem?_append_left (lookup_lt _ i returnVal hr)]
    exact ⟨ha, hr⟩
  have hfirst : ((self.addOverload v₁ N₁ args₁ retVal₁).addOverload v₂ N₂ args₂
        retVal₂).argLists[self.argLists.length]? = some args₁ ∧
      ((self.addOverload v₁ N₁ args₁ retVal₁).addOverload v₂ N₂ args₂
        retVal₂).returnVals[self.argLists.length]? = some retVal₁ := by
    rw [hargs, hrets, List.getElem?_append_right (Nat.le_refl _),
      List.getElem?_append_right (by rw [hwf])]
    simp [hwf]
  have hsecond : ((self.addOverload v₁ N₁ args₁ retVal₁).addOverload v₂ N₂ args₂
        retVal₂).argLists[self.argLists.length + 1]? = some args₂ ∧
      ((self.addOverload v₁ N₁ args₁ retVal₁).addOverload v₂ N₂ args₂
        retVal₂).returnVals[self.argLists.length + 1]? = some retVal₂ := by
    rw [hargs, hrets, List.getElem?_append_right (Nat.le_succ _),
      List.getElem?_append_right (by rw [hwf]; exact Nat.le_succ _)]
    simp [hwf]
  refine ⟨rfl, hargs, hrets, _,
    branchTexts E wrapperName
      ((self.addOverload v₁ N₁ args₁ retVal₁).addOverload v₂ N₂ args₂ retVal₂).overloads 0
      functionNames.length,
    nativeEntries E cppClassName matlabClassName N₂ using_namespaces
      ((self.addOverload v₁ N₁ args₁ retVal₁).addOverload v₂ N₂ args₂ retVal₂).overloads
      functionNames.length,
    proxy_wrapper_fragments_eq E _ proxyFile wrapperFile cppClassName matlabClassName
      wrapperName using_namespaces functionNames hwf', rfl, rfl, ?_, ?_, ?_, ?_, ?_,
    ?_, ?_, ?_, ?_⟩
  · rw [branchTexts_length, overloads_length _ hwf', hlen]
  · rw [nativeEntries_length, overloads_length _ hwf', hlen]
  · simp only [List.length_append, symbolNames_length, hlen]
  · intro i hi
    rw [hlen]
    exact table_lookup functionNames matlabClassName N₂ (self.argLists.length + 2) i hi
  · intro i args returnVal ha hr
    obtain ⟨ha', hr'⟩ := hold i args returnVal ha hr
    exact ⟨branch_lookup E _ wrapperName functionNames.length i args returnVal ha' hr',
      entry_lookup E _ cppClassName matlabClassName using_namespaces _ i args returnVal
        ha' hr'⟩
  · exact branch_lookup E _ wrapperName functionNames.length _ args₁ retVal₁ hfirst.1
      hfirst.2
  · exact entry_lookup E _ cppClassName matlabClassName using_namespaces _ _ args₁ retVal₁
      hfirst.1 hfirst.2
  · exact branch_lookup E _ wrapperName functionNames.length _ args₂ retVal₂ hsecond.1
      hsecond.2
  · exact entry_lookup E _ cppClassName matlabClassName using_namespaces _ _ args₂ retVal₂
      hsecond.1 hsecond.2

/-- C17 on the example method, extended under the names `first` and `second`. -/
theorem addOverload_overwrites_name_witness :
    exampleMethod.returnVals.length = exampleMethod.argLists.length ∧
    (((exampleMethod.addOverload true "first" [] voidReturn).addOverload false "second"
      [⟨"double", "x"⟩] pointReturn).name = "second" ∧
    ((exampleMethod.addOverload true "first" [] voidReturn).addOverload false "second"
      [⟨"double", "x"⟩] pointReturn).argLists =
      exampleMethod.argLists ++ [[], [⟨"double", "x"⟩]] ∧
    ((exampleMethod.addOverload true "first" [] voidReturn).addOverload false "second"
      [⟨"double", "x"⟩] pointReturn).returnVals =
      exampleMethod.returnVals ++ [voidReturn, pointReturn] ∧
    ∃ s branches entries,
      proxy_wrapper_fragments exampleCollaborators
        ((exampleMethod.addOverload true "first" [] voidReturn).addOverload false "second"
          [⟨"double", "x"⟩] pointReturn)
        ⟨""⟩ ⟨""⟩ "Bar" "Bar" "wrapper" ["gtsam"] [] = some s ∧
      s.proxyFile.oss = (⟨""⟩ : FileWriter).oss ++
        ("    function varargout = " ++ upperName "second" ++ "(varargin)\n") ++
        String.join branches ++
        ("      else\n" ++ "        error('Arguments do not match any overload of function " ++
          "Bar" ++ "." ++ upperName "second" ++ "');\n") ++
        ("      end\n" ++ "    end\n") ∧
      s.wrapperFile.oss = (⟨""⟩ : FileWriter).oss ++ String.join entries ∧
      branches.length = exampleMethod.argLists.length + 2 ∧
      entries.length = exampleMethod.argLists.length + 2 ∧
      s.functionNames.length =
        ([] : List String).length + (exampleMethod.argLists.length + 2) ∧
      (∀ i, i < exampleMethod.argLists.length + 2 →
        s.functionNames[([] : List String).length + i]? =
          some ("Bar" ++ "_" ++ "second" ++ "_" ++
            decimal (([] : List String).length + i))) ∧
      (∀ i args returnVal, exampleMethod.argLists[i]? = some args →
        exampleMethod.returnVals[i]? = some returnVal →
        branches[i]? = some (branchText exampleCollaborators "wrapper" i args returnVal
          (([] : List String).length + i)) ∧
        entries[i]? = some (nativeEntry exampleCollaborators "Bar" "Bar" "second" ["gtsam"]
          args returnVal (Int.ofNat (([] : List String).length + i)))) ∧
      branches[exampleMethod.argLists.length]? = some (branchText exampleCollaborators
        "wrapper" exampleMethod.argLists.length [] voidReturn
        (([] : List String).length + exampleMethod.argLists.length)) ∧
      entries[exampleMethod.argLists.length]? = some (nativeEntry exampleCollaborators
        "Bar" "Bar" "second" ["gtsam"] [] voidReturn
        (Int.ofNat (([] : List String).length + exampleMethod.argLists.length))) ∧
      branches[exampleMethod.argLists.length + 1]? = some (branchText exampleCollaborators
        "wrapper" (exampleMethod.argLists.length + 1) [⟨"double", "x"⟩] pointReturn
        (([] : List String).length + (exampleMethod.argLists.length + 1))) ∧
      entries[exampleMethod.argLists.length + 1]? = some (nativeEntry exampleCollaborators
        "Bar" "Bar" "second" ["gtsam"] [⟨"double", "x"⟩] pointReturn
        (Int.ofNat (([] : List String).length + (exampleMethod.argLists.length + 1))))) :=
  ⟨by decide, addOverload_overwrites_name exampleCollaborators exampleMethod true false
    "first" "second" [] [⟨"double", "x"⟩] voidReturn pointReturn ⟨""⟩ ⟨""⟩ "Bar" "Bar"
    "wrapper" ["gtsam"] [] (by decide)⟩

/-- C18: for a method without overloads `proxy_wrapper_fragments` leaves the function
table and the wrapper file as they are and writes a proxy function whose header is
followed directly by `else`, the error call and the `end` lines, without any `if`. -/
theorem no_overloads_emission (E : Collaborators) (self : StaticMethod)
    (proxyFile wrapperFile : FileWriter)
    (cppClassName matlabClassName wrapperName : String) (using_namespaces : List String)
    (functionNames : List String) (hnone : self.argLists = []) :
    proxy_wrapper_fragments E self proxyFile wrapperFile cppClassName matlabClassName
        wrapperName using_namespaces functionNames =
      some ⟨⟨proxyFile.oss ++
          ("    function varargout = " ++ upperName self.name ++ "(varargin)\n") ++
          ("      else\n" ++
            "        error('Arguments do not match any overload of function " ++
            matlabClassName ++ "." ++ upperName self.name ++ "');\n") ++
          ("      end\n" ++ "    end\n")⟩,
        wrapperFile, functionNames⟩ := by
  unfold proxy_wrapper_fragments
  rw [hnone]
  simp only [List.length_nil, overloadLoop, Option.bind_eq_bind, Option.some_bind,
    Option.pure_def]
  simp only [FileWriter.write, String.append_assoc]

/-- C18 on a freshly constructed method. -/
theorem no_overloads_emission_witness :
    (StaticMethod.empty true).argLists = [] ∧
    proxy_wrapper_fragments exampleCollaborators (StaticMethod.empty true) ⟨"% Bar\n"⟩
        ⟨"// Bar\n"⟩ "Bar" "Bar" "wrapper" ["gtsam"] ["Bar_new_0"] =
      some ⟨⟨(⟨"% Bar\n"⟩ : FileWriter).oss ++
          ("    function varargout = " ++ upperName (StaticMethod.empty true).name ++
            "(varargin)\n") ++
          ("      else\n" ++
            "        error('Arguments do not match any overload of function " ++
            "Bar" ++ "." ++ upperName (StaticMethod.empty true).name ++ "');\n") ++
          ("      end\n" ++ "    end\n")⟩,
        ⟨"// Bar\n"⟩, ["Bar_new_0"]⟩ :=
  ⟨rfl, no_overloads_emission exampleCollaborators (StaticMethod.empty true) ⟨"% Bar\n"⟩
    ⟨"// Bar\n"⟩ "Bar" "Bar" "wrapper" ["gtsam"] ["Bar_new_0"] rfl⟩

/-- C19: for a method name with first character c and remaining characters cs, the
proxy function and the error message of the proxy are named by c upper-cased followed by
cs unchanged, while the symbol names of the function table, the name quoted in
`checkArguments` and the native call use the name as registered; two names that differ
only in a first character with the same upper case give the same proxy function name and
different symbol names for the same id. -/
theorem proxy_name_upper_cased (E : Collaborators) (self : StaticMethod)
    (proxyFile wrapperFile : FileWriter)
    (cppClassName matlabClassName wrapperName : String) (using_namespaces : List String)
    (functionNames : List String) (c : Char) (cs : List Char)
    (hname : self.name = String.mk (c :: cs))
    (hwf : self.returnVals.length = self.argLists.length) :
    upperName self.name = String.mk (c.toUpper :: cs) ∧
    (∃ s branches entries,
      proxy_wrapper_fragments E self proxyFile wrapperFile cppClassName matlabClassName
        wrapperName using_namespaces functionNames = some s ∧
      s.proxyFile.oss = proxyFile.oss ++
        ("    function varargout = " ++ String.mk (c.toUpper :: cs) ++ "(varargin)\n") ++
        String.join branches ++
        ("      else\n" ++ "        error('Arguments do not match any overload of function " ++
          matlabClassName ++ "." ++ String.mk (c.toUpper :: cs) ++ "');\n") ++
        ("      end\n" ++ "    end\n") ∧
      s.wrapperFile.oss = wrapperFile.oss ++ String.join entries ∧
      branches.length = self.argLists.length ∧
      entries.length = self.argLists.length ∧
      ∀ i args returnVal, self.argLists[i]? = some args →
        self.returnVals[i]? = some returnVal →
        branches[i]? = some (branchText E wrapperName i args returnVal
          (functionNames.length + i)) ∧
        s.functionNames[functionNames.length + i]? =
          some (matlabClassName ++ "_" ++ String.mk (c :: cs) ++ "_" ++
            decimal (functionNames.length + i)) ∧
        entries[i]? = some (
          entryOpening E matlabClassName (String.mk (c :: cs)) using_namespaces
            (Int.ofNat (functionNames.length + i)) ++
          resultAliases E returnVal ++
          ("  typedef boost::shared_ptr<" ++ cppClassName ++ "> Shared;\n" ++
            "  checkArguments(\x22" ++ matlabClassName ++ "." ++ String.mk (c :: cs) ++
            "\x22,nargout,nargin," ++ decimal args.length ++ ");\n" ++
            E.matlab_unwrap args 0) ++
          ("  " ++ (if returnVal.type1 = "void" then ""
              else E.return_type returnVal true pairing.pair ++ " result = ") ++
            cppClassName ++ "::" ++ String.mk (c :: cs) ++ "(" ++ E.names args ++ ");\n") ++
          E.wrap_result returnVal ++ "\x7d\n")) ∧
    ∀ (c' : Char) (id : Int), c' ≠ c → c'.toUpper = c.toUpper →
      upperName (String.mk (c' :: cs)) = upperName (String.mk (c :: cs)) ∧
      symbolName matlabClassName (String.mk (c' :: cs)) id ≠
        symbolName matlabClassName (String.mk (c :: cs)) id := by
  have hupper : upperName self.name = String.mk (c.toUpper :: cs) := by
    rw [hname, upperName_cons]
  refine ⟨hupper, ⟨_, branchTexts E wrapperName self.overloads 0 functionNames.length,
    nativeEntries E cppClassName matlabClassName self.name using_namespaces self.overloads
      functionNames.length,
    proxy_wrapper_fragments_eq E self proxyFile wrapperFile cppClassName matlabClassName
      wrapperName using_namespaces functionNames hwf, ?_, rfl,
    by rw [branchTexts_length, overloads_length self hwf],
    entries_length E self cppClassName matlabClassName using_namespaces _ hwf, ?_⟩, ?_⟩
  · simp only [proxyHeader, errorBranch, proxyFooter, hupper, String.append_assoc]
  · intro i args returnVal ha hr
    refine ⟨branch_lookup E self wrapperName functionNames.length i args returnVal ha hr,
      ?_, ?_⟩
    · rw [← hname]
      exact table_lookup functionNames matlabClassName self.name self.argLists.length i
        (lookup_lt _ i args ha)
    · rw [entry_lookup E self cppClassName matlabClassName using_namespaces _ i args
        returnVal ha hr, nativeEntry_split, ← hname]
      simp only [entryChecks, String.append_assoc]
  · intro c' id hne hup
    refine ⟨by rw [upperName_cons, upperName_cons, hup], ?_⟩
    intro heq
    exact hne (symbolName_first_char matlabClassName c c' cs id heq)

/-- C19 on the example method, whose name is `foo`. -/
theorem proxy_name_upper_cased_witness :
    exampleMethod.name = String.mk ('f' :: ['o', 'o']) ∧
    exampleMethod.returnVals.length = exampleMethod.argLists.length ∧
    (upperName exampleMethod.name = String.mk ('f'.toUpper :: ['o', 'o']) ∧
    (∃ s branches entries,
      proxy_wrapper_fragments exampleCollaborators exampleMethod ⟨""⟩ ⟨""⟩ "Bar" "Bar"
        "wrapper" ["gtsam"] [] = some s ∧
      s.proxyFile.oss = (⟨""⟩ : FileWriter).oss ++
        ("    function varargout = " ++ String.mk ('f'.toUpper :: ['o', 'o']) ++
          "(varargin)\n") ++
        String.join branches ++
        ("      else\n" ++ "        error('Arguments do not match any overload of function " ++
          "Bar" ++ "." ++ String.mk ('f'.toUpper :: ['o', 'o']) ++ "');\n") ++
        ("      end\n" ++ "    end\n") ∧
      s.wrapperFile.oss = (⟨""⟩ : FileWriter).oss ++ String.join entries ∧
      branches.length = exampleMethod.argLists.length ∧
      entries.length = exampleMethod.argLists.length ∧
      ∀ i args returnVal, exampleMethod.argLists[i]? = some args →
        exampleMethod.returnVals[i]? = some returnVal →
        branches[i]? = some (branchText exampleCollaborators "wrapper" i args returnVal
          (([] : List String).length + i)) ∧
        s.functionNames[([] : List String).length + i]? =
          some ("Bar" ++ "_" ++ String.mk ('f' :: ['o', 'o']) ++ "_" ++
            decimal (([] : List String).length + i)) ∧
        entries[i]? = some (
          entryOpening exampleCollaborators "Bar" (String.mk ('f' :: ['o', 'o'])) ["gtsam"]
            (Int.ofNat (([] : List String).length + i)) ++
          resultAliases exampleCollaborators returnVal ++
          ("  typedef boost::shared_ptr<" ++ "Bar" ++ "> Shared;\n" ++
            "  checkArguments(\x22" ++ "Bar" ++ "." ++ String.mk ('f' :: ['o', 'o']) ++
            "\x22,nargout,nargin," ++ decimal args.length ++ ");\n" ++
            exampleCollaborators.matlab_unwrap args 0) ++
          ("  " ++ (if returnVal.type1 = "void" then ""
              else exampleCollaborators.return_type returnVal true pairing.pair ++
                " result = ") ++
            "Bar" ++ "::" ++ String.mk ('f' :: ['o', 'o']) ++ "(" ++
            exampleCollaborators.names args ++ ");\n") ++
          exampleCollaborators.wrap_result returnVal ++ "\x7d\n")) ∧
    ∀ (c' : Char) (id : Int), c' ≠ 'f' → c'.toUpper = 'f'.toUpper →
      upperName (String.mk (c' :: ['o', 'o'])) = upperName (String.mk ('f' :: ['o', 'o'])) ∧
      symbolName "Bar" (String.mk (c' :: ['o', 'o'])) id ≠
        symbolName "Bar" (String.mk ('f' :: ['o', 'o'])) id) :=
  ⟨rfl, by decide, proxy_name_upper_cased exampleCollaborators exampleMethod ⟨""⟩ ⟨""⟩
    "Bar" "Bar" "wrapper" ["gtsam"] [] 'f' ['o', 'o'] rfl (by decide)⟩

end wrap
